import Mathlib

/-!
Microwave controller (FreeRTOS demo, `WIN32-MSVC/main_blinky.c`)

A shallow embedding of the three tasks of `main_blinky.c`:

* `ReadKeyBoard` : the key to queue-value table;
* `Controller`   : one iteration of the `for (;;)` loop, i.e. the body that runs
  after `xQueueReceive` has delivered `ulReceivedValue` (`Controller_step`), and
  the loop over a finite sequence of deliveries (`Controller_run`);
* `PrintOutput`  : one iteration of its loop (`PrintOutput_cycle`), split into
  the read of the notification slot (`PrintOutput_read`) and the
  `switch (ulState)` (`PrintOutput_render`), and runs of iterations during which
  nothing new is published (`PrintOutput_run`);
* the notification word built by the Controller and taken apart by
  `PrintOutput`.

Machine integers (`uint32_t`, `TickType_t`) are natural numbers reduced modulo
`2 ^ 32` wherever the C arithmetic can wrap.  The FreeRTOS kernel objects the
tasks use (software timer, task notification) are not part of the repository;
they are modelled by the small records `Timer` and `NotifySlot` below, and a
timer or notification call takes effect at once, within the step that makes it.
Each step reads one tick count, `now`.
-/

namespace Microwave

/-! ## Constants of `main_blinky.c` (lines 102-122) -/

abbrev TIMER_5s : Nat := 1
abbrev TIMER_10s : Nat := 2
abbrev TIMER_15s : Nat := 3
abbrev USER_START : Nat := 4
abbrev USER_PAUSE : Nat := 5
abbrev USER_RESUME : Nat := 6
abbrev USER_CANCEL : Nat := 7
abbrev POWER_ON : Nat := 8
abbrev POWER_OFF : Nat := 9
abbrev C_NORMAL : Nat := 10
abbrev C_FAILURE : Nat := 11
abbrev TIMER_EXPIRED : Nat := 12
abbrev DEFAULT_STATE : Nat := 13

abbrev EM_ON : Nat := 1
abbrev EM_OFF : Nat := 0
abbrev LIGHT_ON : Nat := 1
abbrev LIGHT_OFF : Nat := 0
abbrev BUZZER_ON : Nat := 1
abbrev BUZZER_OFF : Nat := 0

/-- Number of values of a `uint32_t` / `TickType_t`. -/
abbrev WORD : Nat := 2 ^ 32

/-- Unsigned 32-bit subtraction `a - b` of two words. -/
def sub32 (a b : Nat) : Nat := (a % WORD + (WORD - b % WORD)) % WORD

/-- Modelled from the spec: `FreeRTOSConfig.h` is not among the sources.  The
spec gives every duration in milliseconds and the Display divides a tick count
by 1000 to print seconds, so one tick is one millisecond. -/
abbrev configTICK_RATE_HZ : Nat := 1000

/-- Modelled from the spec: the kernel macro `pdMS_TO_TICKS` (FreeRTOS
`projdefs.h`, not among the sources) turns milliseconds into ticks. -/
def pdMS_TO_TICKS (xTimeInMs : Nat) : Nat :=
  (xTimeInMs * configTICK_RATE_HZ / 1000) % WORD

/-! ## Kernel objects -/

/-- The one software timer `xTimers`: whether it is in the active list, its
period in ticks, and the tick at which it is due (the value
`xTimerGetExpiryTime` returns). -/
structure Timer where
  active : Bool
  period : Nat
  expiry : Nat
deriving DecidableEq, Repr

/-- Modelled from the spec: `restart(duration)` of the Countdown Timer
(FreeRTOS `xTimerChangePeriod`, kernel code not among the sources): replaces any
in-flight countdown by a new one of `xNewPeriod` ticks counted from `now`, and
leaves the timer running. -/
def xTimerChangePeriod (_t : Timer) (xNewPeriod now : Nat) : Timer :=
  { active := true, period := xNewPeriod, expiry := (now + xNewPeriod) % WORD }

/-- Modelled from the spec: `stop()` of the Countdown Timer (FreeRTOS
`xTimerStop`, kernel code not among the sources): halts the timer without
firing; period and expiry time stay as they were. -/
def xTimerStop (t : Timer) : Timer :=
  { t with active := false }

/-- Modelled from the spec: the expiry time the kernel keeps for the timer
(FreeRTOS `xTimerGetExpiryTime`, kernel code not among the sources). -/
def xTimerGetExpiryTime (t : Timer) : Nat := t.expiry

/-- Modelled from the spec: natural expiry of the one-shot timer.  The timer
callback `vTimerCallback` (which sends `TIMER_EXPIRED`) runs at tick `now`
exactly when the timer is active and due at `now`. -/
def timerFires (t : Timer) (now : Nat) : Bool :=
  t.active && (t.expiry == now % WORD)

/-- The task-notification slot of the `PrintOutput` task (`hPrintOutput`): the
32-bit notification value and whether a notification is pending. -/
structure NotifySlot where
  value : Nat
  pending : Bool
deriving DecidableEq, Repr

/-- Modelled from the spec: publishing to the overwrite-only notification slot
(FreeRTOS `xTaskNotify` with `eSetValueWithOverwrite`, kernel code not among the
sources): the value is replaced and a notification becomes pending, whether or
not the previous one was read. -/
def xTaskNotify (_n : NotifySlot) (ulValue : Nat) : NotifySlot :=
  { value := ulValue % WORD, pending := true }

/-! ## Notification word -/

/-- The word the Controller builds, e.g. line 243:
`(EM_ON << 0) | (LIGHT_ON << 1) | (BUZZER_OFF << 2) | (TIMER_5s << 3)`,
as a 32-bit value. -/
def notifyWord (em light buzzer reason : Nat) : Nat :=
  ((em <<< 0) ||| (light <<< 1) ||| (buzzer <<< 2) ||| (reason <<< 3)) % WORD

/-- The four fields `PrintOutput` extracts from a received word (lines 337-340):
`ulEM`, `ulLight`, `ulBuzzer`, `ulState`. -/
def decodeWord (ulReceivedValue : Nat) : Nat × Nat × Nat × Nat :=
  ((ulReceivedValue >>> 0) &&& 0x1,
   (ulReceivedValue >>> 1) &&& 0x1,
   (ulReceivedValue >>> 2) &&& 0x1,
   ulReceivedValue >>> 3)

/-! ## Controller task -/

/-- Everything one iteration of the Controller loop reads or writes: its locals
`ulCond` and `ulRemainingTick`, the timer `xTimers`, the notification slot of
`hPrintOutput`, and the lines it has printed. -/
structure System where
  ulCond : Nat
  ulRemainingTick : Nat
  xTimers : Timer
  hPrintOutput : NotifySlot
  console : List String
deriving DecidableEq, Repr

/-- State at the first iteration of the Controller loop (lines 215-218):
`ulCond = POWER_OFF`, `ulRemainingTick = 0`; the timer has been created (with a
period of 2000 ms, line 154) but never started, and nothing has been notified. -/
def Controller_init : System :=
  { ulCond := POWER_OFF
    ulRemainingTick := 0
    xTimers := { active := false, period := pdMS_TO_TICKS 2000, expiry := 0 }
    hPrintOutput := { value := 0, pending := false }
    console := [] }

/-- The `switch (ulCond)` of the Controller (lines 225-313) for the received
value `ulReceivedValue`, at tick count `now`.  Returns the updated locals and
timer together with `ulNotifiedValue`, which line 222 has reset to 0. -/
def Controller_switch (now : Nat) (s : System) (ulReceivedValue : Nat) : System × Nat :=
  if s.ulCond = POWER_OFF then
    if ulReceivedValue = POWER_ON then
      ({ s with ulCond := C_NORMAL },
        notifyWord EM_OFF LIGHT_OFF BUZZER_OFF C_NORMAL)
    else (s, 0)
  else if s.ulCond = POWER_ON ∨ s.ulCond = C_NORMAL then
    if ulReceivedValue = TIMER_5s then
      ({ s with xTimers := xTimerChangePeriod s.xTimers (pdMS_TO_TICKS 5000) now
                console := s.console ++ ["5s Timer starts..."] },
        notifyWord EM_ON LIGHT_ON BUZZER_OFF TIMER_5s)
    else if ulReceivedValue = TIMER_10s then
      ({ s with xTimers := xTimerChangePeriod s.xTimers (pdMS_TO_TICKS 10000) now
                console := s.console ++ ["10s Timer starts..."] },
        notifyWord EM_ON LIGHT_ON BUZZER_OFF TIMER_10s)
    else if ulReceivedValue = TIMER_15s then
      ({ s with xTimers := xTimerChangePeriod s.xTimers (pdMS_TO_TICKS 15000) now
                console := s.console ++ ["15s Timer starts..."] },
        notifyWord EM_ON LIGHT_ON BUZZER_OFF TIMER_15s)
    else if ulReceivedValue = USER_PAUSE then
      let t := xTimerStop s.xTimers
      ({ s with xTimers := t
                ulRemainingTick := sub32 (xTimerGetExpiryTime t) now
                console := s.console ++ ["Microwave Paused..."] },
        notifyWord EM_OFF LIGHT_OFF BUZZER_OFF USER_PAUSE)
    else if ulReceivedValue = USER_RESUME then
      if s.ulRemainingTick ≠ 0 then
        ({ s with xTimers := xTimerChangePeriod s.xTimers s.ulRemainingTick now
                  console := s.console ++ ["Microwave Resumed..."] },
          notifyWord EM_ON LIGHT_ON BUZZER_OFF USER_RESUME)
      else
        ({ s with console := s.console ++ ["Microwave Resumed...", "No remaining time left..."] },
          0)
    else if ulReceivedValue = USER_CANCEL then
      ({ s with xTimers := xTimerStop s.xTimers
                console := s.console ++ ["Microwave Cancelled..."] },
        notifyWord EM_OFF LIGHT_OFF BUZZER_OFF USER_CANCEL)
    else if ulReceivedValue = TIMER_EXPIRED then
      ({ s with console := s.console ++ ["Times Up! Food is ready..."] },
        notifyWord EM_OFF LIGHT_ON BUZZER_ON TIMER_EXPIRED)
    else if ulReceivedValue = C_FAILURE then
      ({ s with ulCond := C_FAILURE
                xTimers := xTimerStop s.xTimers
                console := s.console ++ ["Condition Fail..."] },
        notifyWord EM_OFF LIGHT_ON BUZZER_ON C_FAILURE)
    else if ulReceivedValue = POWER_OFF then
      ({ s with ulCond := POWER_OFF
                xTimers := xTimerStop s.xTimers },
        notifyWord EM_OFF LIGHT_OFF BUZZER_OFF POWER_OFF)
    else (s, 0)
  else if s.ulCond = C_FAILURE then
    if ulReceivedValue = POWER_OFF then
      ({ s with ulCond := POWER_OFF
                xTimers := xTimerStop s.xTimers },
        notifyWord EM_OFF LIGHT_ON BUZZER_ON POWER_OFF)
    else if ulReceivedValue = C_NORMAL then
      ({ s with ulCond := C_NORMAL
                console := s.console ++ ["Condition Normal..."] },
        notifyWord EM_OFF LIGHT_OFF BUZZER_OFF C_NORMAL)
    else (s, 0)
  else (s, 0)

/-- One iteration of the Controller loop (lines 220-316) once `xQueueReceive`
has delivered `ulReceivedValue`: the switch, then the unconditional
`xTaskNotify (hPrintOutput, ulNotifiedValue, eSetValueWithOverwrite)` of
line 315. -/
def Controller_step (now : Nat) (s : System) (ulReceivedValue : Nat) : System :=
  let r := Controller_switch now s ulReceivedValue
  { r.1 with hPrintOutput := xTaskNotify r.1.hPrintOutput r.2 }

/-- The value a step hands to `xTaskNotify` (the final `ulNotifiedValue`). -/
def Controller_notified (now : Nat) (s : System) (ulReceivedValue : Nat) : Nat :=
  (Controller_switch now s ulReceivedValue).2

/-- The Controller loop over a finite sequence of deliveries: each entry is the
tick count at which the iteration runs and the value `xQueueReceive` delivers. -/
def Controller_run (s : System) (deliveries : List (Nat × Nat)) : System :=
  deliveries.foldl (fun st d => Controller_step d.1 st d.2) s

/-! ## States and events as the spec names them -/

/-- The controller is PoweredOff. -/
def isPoweredOff (s : System) : Prop := s.ulCond = POWER_OFF

/-- The controller is Active: the `case POWER_ON: case C_NORMAL:` arm. -/
def isActive (s : System) : Prop := s.ulCond = POWER_ON ∨ s.ulCond = C_NORMAL

/-- The controller is in Failure. -/
def isFailure (s : System) : Prop := s.ulCond = C_FAILURE

instance (s : System) : Decidable (isPoweredOff s) := by unfold isPoweredOff; infer_instance
instance (s : System) : Decidable (isActive s) := by unfold isActive; infer_instance
instance (s : System) : Decidable (isFailure s) := by unfold isFailure; infer_instance

/-- The transition table of the spec (section 4.3), as a predicate: is the event
with code `ev` listed for the controller state with code `cond`?  Follows the
table's rows, not the code. -/
def listedInSpecTable (cond ev : Nat) : Bool :=
  if cond = POWER_OFF then ev = POWER_ON
  else if cond = POWER_ON ∨ cond = C_NORMAL then
    ev = TIMER_5s ∨ ev = TIMER_10s ∨ ev = TIMER_15s ∨ ev = USER_PAUSE ∨ ev = USER_RESUME
      ∨ ev = USER_CANCEL ∨ ev = TIMER_EXPIRED ∨ ev = C_FAILURE ∨ ev = POWER_OFF
  else if cond = C_FAILURE then ev = C_NORMAL ∨ ev = POWER_OFF
  else false

/-! ## Input Source task -/

/-- The `switch (keyboardValue)` of `ReadKeyBoard` (lines 173-199): the value of
`ulQueueValue` (reset to 0 on line 173) and the acknowledgment lines printed for
the two power keys. -/
def ReadKeyBoard_switch (keyboardValue : Nat) : Nat × List String :=
  if keyboardValue = '1'.toNat then (TIMER_5s, [])
  else if keyboardValue = '2'.toNat then (TIMER_10s, [])
  else if keyboardValue = '3'.toNat then (TIMER_15s, [])
  else if keyboardValue = 'p'.toNat then (USER_PAUSE, [])
  else if keyboardValue = 'r'.toNat then (USER_RESUME, [])
  else if keyboardValue = 'c'.toNat then (USER_CANCEL, [])
  else if keyboardValue = '8'.toNat then (POWER_ON, ["Power is ON..."])
  else if keyboardValue = '9'.toNat then (POWER_OFF, ["Power is OFF..."])
  else if keyboardValue = 'n'.toNat then (C_NORMAL, [])
  else if keyboardValue = 'f'.toNat then (C_FAILURE, [])
  else (0, [])

/-- What `ReadKeyBoard` hands to `xQueueSend` for a key (lines 201-204): the
queue value when it is nonzero, nothing otherwise. -/
def ReadKeyBoard_send (keyboardValue : Nat) : Option Nat :=
  let ulQueueValue := (ReadKeyBoard_switch keyboardValue).1
  if ulQueueValue ≠ 0 then some ulQueueValue else none

/-- The ten key codes of the spec's key table (section 6), in its order. -/
def specKeys : List Nat :=
  ['1'.toNat, '2'.toNat, '3'.toNat, 'p'.toNat, 'r'.toNat, 'c'.toNat,
   '8'.toNat, '9'.toNat, 'n'.toNat, 'f'.toNat]

/-- The event the spec's key table (section 6) gives for a key, if any. -/
def specKeyEvent (k : Nat) : Option Nat :=
  if k = '1'.toNat then some TIMER_5s
  else if k = '2'.toNat then some TIMER_10s
  else if k = '3'.toNat then some TIMER_15s
  else if k = 'p'.toNat then some USER_PAUSE
  else if k = 'r'.toNat then some USER_RESUME
  else if k = 'c'.toNat then some USER_CANCEL
  else if k = '8'.toNat then some POWER_ON
  else if k = '9'.toNat then some POWER_OFF
  else if k = 'n'.toNat then some C_NORMAL
  else if k = 'f'.toNat then some C_FAILURE
  else none

/-- The `remaining()` query of the Countdown Timer, as the code writes it on
lines 258 and 349: `xTimerGetExpiryTime (xTimers) - xTaskGetTickCount ()` in
unsigned 32-bit arithmetic. -/
def remaining (t : Timer) (now : Nat) : Nat :=
  sub32 (xTimerGetExpiryTime t) now

/-- PoweredOff with the PowerOff notification of a step out of Failure (word 78)
still unread in the slot. -/
def poweredOffUnread : System :=
  { Controller_init with hPrintOutput := { value := 78, pending := true } }

/-- A controller in Failure whose timer is stopped. -/
def failureIdle : System :=
  { Controller_init with ulCond := C_FAILURE, hPrintOutput := { value := 94, pending := true } }

/-- Active, 2000 ticks into a 5000-tick countdown started at tick 0: the state
reached from `Controller_init` by PowerOn and then StartShort at tick 0. -/
def cookingShort : System :=
  Controller_step 0 (Controller_step 0 Controller_init POWER_ON) TIMER_5s

/-! ## Display task -/

/-- The locals of `PrintOutput` that live across iterations (lines 323-325). -/
structure Display where
  ulRemainingTick : Nat
  ulEM : Nat
  ulLight : Nat
  ulBuzzer : Nat
  ulState : Nat
  beepCnt : Nat
  timesUpBeepCnt : Nat
deriving DecidableEq, Repr

/-- The locals of `PrintOutput` when its loop is first entered (lines 323-325). -/
def PrintOutput_init : Display :=
  { ulRemainingTick := 0
    ulEM := 0
    ulLight := 0
    ulBuzzer := 0
    ulState := DEFAULT_STATE
    beepCnt := 2
    timesUpBeepCnt := 0 }

/-- One console line of `PrintOutput`, one constructor for each `printf` format
with the values it is given: `countdown` for lines 350 and 353 (fields and
seconds left), `fields` for lines 356 and 367, `normal` for line 372, `failure`
for line 378 and `failureOff` for the constant all-zero line 382. -/
inductive Line where
  | countdown (em light buzzer seconds : Nat)
  | fields (em light buzzer : Nat)
  | normal (em light buzzer : Nat)
  | failure (em light buzzer : Nat)
  | failureOff
deriving DecidableEq, Repr

/-- Modelled from the spec: the non-blocking read of the notification slot
(FreeRTOS `xTaskNotifyWait (0x00, ULONG_MAX, &ulReceivedValue, 0)`, kernel code
not among the sources).  Returns `isNotifyReceived`, the value handed back and
the slot afterwards: a pending notification is consumed and all its bits are
cleared on exit; with nothing pending the call returns at once and the slot is
as it was. -/
def xTaskNotifyWait (n : NotifySlot) : Bool × Nat × NotifySlot :=
  if n.pending then (true, n.value, { value := 0, pending := false })
  else (false, n.value, n)

/-- The read step of one `PrintOutput` iteration (lines 332-341): the call of
`xTaskNotifyWait` and, when a notification was received, the four assignments
that take the word apart. -/
def PrintOutput_read (n : NotifySlot) (d : Display) : Display × NotifySlot :=
  let r := xTaskNotifyWait n
  let ulReceivedValue := r.2.1
  if r.1 = true then
    ({ d with ulEM := (ulReceivedValue >>> 0) &&& 0x1
              ulLight := (ulReceivedValue >>> 1) &&& 0x1
              ulBuzzer := (ulReceivedValue >>> 2) &&& 0x1
              ulState := ulReceivedValue >>> 3 },
      r.2.2)
  else (d, r.2.2)

/-- The `switch (ulState)` of `PrintOutput` (lines 343-388) at tick count `now`
with the timer `t`: the updated locals and the line printed, if any. -/
def PrintOutput_render (now : Nat) (t : Timer) (d : Display) : Display × Option Line :=
  if d.ulState = TIMER_5s ∨ d.ulState = TIMER_10s ∨ d.ulState = TIMER_15s
      ∨ d.ulState = USER_RESUME then
    let ulRemainingTick := sub32 (xTimerGetExpiryTime t) now
    ({ d with ulRemainingTick := ulRemainingTick },
      some (Line.countdown d.ulEM d.ulLight d.ulBuzzer (ulRemainingTick / 1000)))
  else if d.ulState = USER_PAUSE then
    (d, some (Line.countdown d.ulEM d.ulLight d.ulBuzzer (d.ulRemainingTick / 1000)))
  else if d.ulState = TIMER_EXPIRED then
    let timesUpBeepCnt := (d.timesUpBeepCnt + 1) % WORD
    if timesUpBeepCnt = 3 then
      ({ d with ulState := DEFAULT_STATE
                timesUpBeepCnt := 0 },
        some (Line.fields d.ulEM d.ulLight d.ulBuzzer))
    else
      ({ d with timesUpBeepCnt := timesUpBeepCnt },
        some (Line.fields d.ulEM d.ulLight d.ulBuzzer))
  else if d.ulState = USER_CANCEL ∨ d.ulState = POWER_OFF then
    ({ d with ulState := DEFAULT_STATE },
      some (Line.fields d.ulEM d.ulLight d.ulBuzzer))
  else if d.ulState = C_NORMAL then
    (d, some (Line.normal d.ulEM d.ulLight d.ulBuzzer))
  else if d.ulState = C_FAILURE then
    ({ d with beepCnt := (d.beepCnt + 1) % WORD },
      if d.beepCnt % 2 = 0 then some (Line.failure d.ulEM d.ulLight d.ulBuzzer)
      else some Line.failureOff)
  else if d.ulState = DEFAULT_STATE then
    (d, none)
  else (d, none)

/-- One iteration of the `PrintOutput` loop (lines 328-393), run at tick count
`now`: the read step, then the switch.  Returns the locals, the notification
slot and the line printed, if any. -/
def PrintOutput_cycle (now : Nat) (t : Timer) (n : NotifySlot) (d : Display) :
    Display × NotifySlot × Option Line :=
  let r := PrintOutput_read n d
  let q := PrintOutput_render now t r.1
  (q.1, r.2, q.2)

/-- Consecutive iterations of the `PrintOutput` loop during which the Controller
publishes nothing: one entry per wake cycle, giving the tick count and the timer
as they are at that cycle.  Returns the final locals and slot and what each
cycle printed. -/
def PrintOutput_run (d : Display) (n : NotifySlot) :
    List (Nat × Timer) → Display × NotifySlot × List (Option Line)
  | [] => (d, n, [])
  | c :: rest =>
    let r := PrintOutput_cycle c.1 c.2 n d
    let q := PrintOutput_run r.1 r.2.1 rest
    (q.1, q.2.1, r.2.2 :: q.2.2)

/-- A notification slot with nothing pending. -/
def slotEmpty : NotifySlot := { value := 0, pending := false }

/-- A notification slot holding the unread word `w`. -/
def slotHolding (w : Nat) : NotifySlot := { value := w, pending := true }

/-! ## The Controller together with the timer's own expiry -/

/-- Modelled from the spec: what a tick does to the one-shot timer (created with
auto-reload `pdFALSE`, line 154; kernel code not among the sources).  At a tick
at which it fires the timer leaves the active state; otherwise it is as it
was. -/
def timerTick (t : Timer) (now : Nat) : Timer :=
  if timerFires t now then { t with active := false } else t

/-- What can happen to the Controller's state: an iteration of its loop for a
delivered value at tick count `now`, or the passing of tick `now` for the
timer. -/
inductive Occurrence where
  | deliver (now ev : Nat)
  | tick (now : Nat)
deriving DecidableEq, Repr

/-- The effect of one occurrence. -/
def System_occur (s : System) : Occurrence → System
  | Occurrence.deliver now ev => Controller_step now s ev
  | Occurrence.tick now => { s with xTimers := timerTick s.xTimers now }

/-- The effect of a finite sequence of occurrences. -/
def System_run (s : System) (occurrences : List Occurrence) : System :=
  occurrences.foldl System_occur s

/-- The timer after a second StartShort, received at tick 5500: due at tick
10500. -/
def secondCountdown : Timer :=
  xTimerChangePeriod cookingShort.xTimers (pdMS_TO_TICKS 5000) 5500

/-- The Display after an Expired episode cut short.  From its initial locals it
reads the Expired word 102 of the first countdown and prints once (tick 5000);
the StartShort word 11 is published at tick 5500, and the Display reads it at
tick 6000 and shows the second countdown on the five cycles up to tick 10000. -/
def displayInterrupted : Display :=
  (PrintOutput_run
    (PrintOutput_cycle 5000 (xTimerStop cookingShort.xTimers) (slotHolding 102)
      PrintOutput_init).1
    (slotHolding 11)
    [(6000, secondCountdown), (7000, secondCountdown), (8000, secondCountdown),
     (9000, secondCountdown), (10000, secondCountdown)]).1

/-- The four wake cycles, one second apart, that follow the expiry of the second
countdown at tick 10500; the timer has fired and is no longer active. -/
def fourQuietCycles : List (Nat × Timer) :=
  [(11000, xTimerStop secondCountdown), (12000, xTimerStop secondCountdown),
   (13000, xTimerStop secondCountdown), (14000, xTimerStop secondCountdown)]

/-! ## Theorems -/

theorem switch_of_not_listed (now : Nat) (s : System) (ev : Nat)
    (h : listedInSpecTable s.ulCond ev = false) :
    Controller_switch now s ev = (s, 0) := by
  unfold listedInSpecTable at h
  unfold Controller_switch
  by_cases h1 : s.ulCond = POWER_OFF
  · rw [if_pos h1] at h ⊢
    have h2 : ¬ ev = POWER_ON := by simpa using h
    rw [if_neg h2]
  · rw [if_neg h1] at h ⊢
    by_cases h2 : s.ulCond = POWER_ON ∨ s.ulCond = C_NORMAL
    · rw [if_pos h2] at h ⊢
      have h3 : ¬ (ev = TIMER_5s ∨ ev = TIMER_10s ∨ ev = TIMER_15s ∨ ev = USER_PAUSE
          ∨ ev = USER_RESUME ∨ ev = USER_CANCEL ∨ ev = TIMER_EXPIRED ∨ ev = C_FAILURE
          ∨ ev = POWER_OFF) := by simpa using h
      simp only [not_or] at h3
      obtain ⟨a1, a2, a3, a4, a5, a6, a7, a8, a9⟩ := h3
      rw [if_neg a1, if_neg a2, if_neg a3, if_neg a4, if_neg a5, if_neg a6, if_neg a7,
        if_neg a8, if_neg a9]
    · rw [if_neg h2] at h ⊢
      by_cases h3 : s.ulCond = C_FAILURE
      · rw [if_pos h3] at h ⊢
        have h4 : ¬ (ev = C_NORMAL ∨ ev = POWER_OFF) := by simpa using h
        simp only [not_or] at h4
        rw [if_neg h4.2, if_neg h4.1]
      · rw [if_neg h3]

/-- In the Active arm `ulCond` is not `POWER_OFF`. -/
theorem active_ne_off {s : System} (h : isActive s) : ¬ s.ulCond = POWER_OFF := by
  rcases h with h | h <;> rw [h] <;> decide

/-- In Failure `ulCond` is neither `POWER_OFF` nor in the Active arm. -/
theorem failure_ne {s : System} (h : isFailure s) :
    ¬ s.ulCond = POWER_OFF ∧ ¬ (s.ulCond = POWER_ON ∨ s.ulCond = C_NORMAL) := by
  unfold isFailure at h
  rw [h]
  decide

/-- Lines 241-245: `TIMER_5s` received in the Active arm. -/
theorem switch_active_5s (now : Nat) (s : System) (h : isActive s) :
    Controller_switch now s TIMER_5s
      = ({ s with xTimers := xTimerChangePeriod s.xTimers (pdMS_TO_TICKS 5000) now,
                  console := s.console ++ ["5s Timer starts..."] },
          notifyWord EM_ON LIGHT_ON BUZZER_OFF TIMER_5s) := by
  have h0 := active_ne_off h
  have h1 : s.ulCond = POWER_ON ∨ s.ulCond = C_NORMAL := h
  unfold Controller_switch
  rw [if_neg h0, if_pos h1]
  rfl

/-- Lines 246-250: `TIMER_10s` received in the Active arm. -/
theorem switch_active_10s (now : Nat) (s : System) (h : isActive s) :
    Controller_switch now s TIMER_10s
      = ({ s with xTimers := xTimerChangePeriod s.xTimers (pdMS_TO_TICKS 10000) now,
                  console := s.console ++ ["10s Timer starts..."] },
          notifyWord EM_ON LIGHT_ON BUZZER_OFF TIMER_10s) := by
  have h0 := active_ne_off h
  have h1 : s.ulCond = POWER_ON ∨ s.ulCond = C_NORMAL := h
  unfold Controller_switch
  rw [if_neg h0, if_pos h1]
  rfl

/-- Lines 251-255: `TIMER_15s` received in the Active arm. -/
theorem switch_active_15s (now : Nat) (s : System) (h : isActive s) :
    Controller_switch now s TIMER_15s
      = ({ s with xTimers := xTimerChangePeriod s.xTimers (pdMS_TO_TICKS 15000) now,
                  console := s.console ++ ["15s Timer starts..."] },
          notifyWord EM_ON LIGHT_ON BUZZER_OFF TIMER_15s) := by
  have h0 := active_ne_off h
  have h1 : s.ulCond = POWER_ON ∨ s.ulCond = C_NORMAL := h
  unfold Controller_switch
  rw [if_neg h0, if_pos h1]
  rfl

/-- Lines 256-261: `USER_PAUSE` received in the Active arm. -/
theorem switch_active_pause (now : Nat) (s : System) (h : isActive s) :
    Controller_switch now s USER_PAUSE
      = ({ s with xTimers := xTimerStop s.xTimers,
                  ulRemainingTick := sub32 (xTimerGetExpiryTime (xTimerStop s.xTimers)) now,
                  console := s.console ++ ["Microwave Paused..."] },
          notifyWord EM_OFF LIGHT_OFF BUZZER_OFF USER_PAUSE) := by
  have h0 := active_ne_off h
  have h1 : s.ulCond = POWER_ON ∨ s.ulCond = C_NORMAL := h
  unfold Controller_switch
  rw [if_neg h0, if_pos h1]
  rfl

/-- Lines 274-278: `USER_CANCEL` received in the Active arm. -/
theorem switch_active_cancel (now : Nat) (s : System) (h : isActive s) :
    Controller_switch now s USER_CANCEL
      = ({ s with xTimers := xTimerStop s.xTimers,
                  console := s.console ++ ["Microwave Cancelled..."] },
          notifyWord EM_OFF LIGHT_OFF BUZZER_OFF USER_CANCEL) := by
  have h0 := active_ne_off h
  have h1 : s.ulCond = POWER_ON ∨ s.ulCond = C_NORMAL := h
  unfold Controller_switch
  rw [if_neg h0, if_pos h1]
  rfl

/-- Lines 279-282: `TIMER_EXPIRED` received in the Active arm. -/
theorem switch_active_expired (now : Nat) (s : System) (h : isActive s) :
    Controller_switch now s TIMER_EXPIRED
      = ({ s with console := s.console ++ ["Times Up! Food is ready..."] },
          notifyWord EM_OFF LIGHT_ON BUZZER_ON TIMER_EXPIRED) := by
  have h0 := active_ne_off h
  have h1 : s.ulCond = POWER_ON ∨ s.ulCond = C_NORMAL := h
  unfold Controller_switch
  rw [if_neg h0, if_pos h1]
  rfl

/-- Lines 283-288: `C_FAILURE` received in the Active arm. -/
theorem switch_active_failure (now : Nat) (s : System) (h : isActive s) :
    Controller_switch now s C_FAILURE
      = ({ s with ulCond := C_FAILURE,
                  xTimers := xTimerStop s.xTimers,
                  console := s.console ++ ["Condition Fail..."] },
          notifyWord EM_OFF LIGHT_ON BUZZER_ON C_FAILURE) := by
  have h0 := active_ne_off h
  have h1 : s.ulCond = POWER_ON ∨ s.ulCond = C_NORMAL := h
  unfold Controller_switch
  rw [if_neg h0, if_pos h1]
  rfl

/-- Lines 289-293: `POWER_OFF` received in the Active arm. -/
theorem switch_active_off (now : Nat) (s : System) (h : isActive s) :
    Controller_switch now s POWER_OFF
      = ({ s with ulCond := POWER_OFF,
                  xTimers := xTimerStop s.xTimers },
          notifyWord EM_OFF LIGHT_OFF BUZZER_OFF POWER_OFF) := by
  have h0 := active_ne_off h
  have h1 : s.ulCond = POWER_ON ∨ s.ulCond = C_NORMAL := h
  unfold Controller_switch
  rw [if_neg h0, if_pos h1]
  rfl

/-- Lines 262-268: `USER_RESUME` received in the Active arm with a nonzero
snapshot. -/
theorem switch_active_resume (now : Nat) (s : System) (h : isActive s)
    (hr : s.ulRemainingTick ≠ 0) :
    Controller_switch now s USER_RESUME
      = ({ s with xTimers := xTimerChangePeriod s.xTimers s.ulRemainingTick now,
                  console := s.console ++ ["Microwave Resumed..."] },
          notifyWord EM_ON LIGHT_ON BUZZER_OFF USER_RESUME) := by
  have h0 := active_ne_off h
  have h1 : s.ulCond = POWER_ON ∨ s.ulCond = C_NORMAL := h
  unfold Controller_switch
  rw [if_neg h0, if_pos h1]
  have e1 : ¬ USER_RESUME = TIMER_5s := by decide
  have e2 : ¬ USER_RESUME = TIMER_10s := by decide
  have e3 : ¬ USER_RESUME = TIMER_15s := by decide
  have e4 : ¬ USER_RESUME = USER_PAUSE := by decide
  rw [if_neg e1, if_neg e2, if_neg e3, if_neg e4, if_pos rfl, if_pos hr]

/-- Line 230-233: `POWER_ON` received while PoweredOff. -/
theorem switch_off_on (now : Nat) (s : System) (h : isPoweredOff s) :
    Controller_switch now s POWER_ON
      = ({ s with ulCond := C_NORMAL }, notifyWord EM_OFF LIGHT_OFF BUZZER_OFF C_NORMAL) := by
  have h0 : s.ulCond = POWER_OFF := h
  unfold Controller_switch
  rw [if_pos h0]
  rfl

/-- Lines 300-304: `POWER_OFF` received in Failure. -/
theorem switch_failure_off (now : Nat) (s : System) (h : isFailure s) :
    Controller_switch now s POWER_OFF
      = ({ s with ulCond := POWER_OFF,
                  xTimers := xTimerStop s.xTimers },
          notifyWord EM_OFF LIGHT_ON BUZZER_ON POWER_OFF) := by
  have h2 : s.ulCond = C_FAILURE := h
  unfold Controller_switch
  rw [if_neg (failure_ne h).1, if_neg (failure_ne h).2, if_pos h2]
  rfl

/-- Lines 306-310: `C_NORMAL` received in Failure. -/
theorem switch_failure_normal (now : Nat) (s : System) (h : isFailure s) :
    Controller_switch now s C_NORMAL
      = ({ s with ulCond := C_NORMAL,
                  console := s.console ++ ["Condition Normal..."] },
          notifyWord EM_OFF LIGHT_OFF BUZZER_OFF C_NORMAL) := by
  have h2 : s.ulCond = C_FAILURE := h
  unfold Controller_switch
  rw [if_neg (failure_ne h).1, if_neg (failure_ne h).2, if_pos h2]
  rfl

/-- In Failure every event other than `POWER_OFF` and `C_NORMAL` falls through
the inner switch. -/
theorem switch_failure_other (now : Nat) (s : System) (ev : Nat) (h : isFailure s)
    (h1 : ev ≠ C_NORMAL) (h2 : ev ≠ POWER_OFF) :
    Controller_switch now s ev = (s, 0) := by
  have h3 : s.ulCond = C_FAILURE := h
  unfold Controller_switch
  rw [if_neg (failure_ne h).1, if_neg (failure_ne h).2, if_pos h3, if_neg h2, if_neg h1]

/-- Unsigned subtraction does not wrap when the subtrahend is the smaller word. -/
theorem sub32_of_lt {a b : Nat} (ha : a < WORD) (hb : b < a) : sub32 a b = a - b := by
  unfold sub32
  simp only [WORD] at ha ⊢
  omega

/-- A timer restarted at `now` with a period `p` below `2 ^ 32` has `p` ticks
remaining at `now`. -/
theorem remaining_changePeriod (t : Timer) (p now : Nat) (hp : p < WORD) :
    remaining (xTimerChangePeriod t p now) now = p := by
  unfold remaining sub32 xTimerGetExpiryTime xTimerChangePeriod
  simp only [WORD] at hp ⊢
  omega

/-- The whole Pause step of an Active controller. -/
theorem step_pause (now : Nat) (s : System) (h : isActive s) :
    Controller_step now s USER_PAUSE
      = { s with xTimers := xTimerStop s.xTimers,
                 ulRemainingTick := remaining s.xTimers now,
                 hPrintOutput := { value := 40, pending := true },
                 console := s.console ++ ["Microwave Paused..."] } := by
  simp only [Controller_step, switch_active_pause now s h]
  rfl

/-- The whole Resume step of an Active controller with a nonzero snapshot. -/
theorem step_resume (now : Nat) (s : System) (h : isActive s) (hr : s.ulRemainingTick ≠ 0) :
    Controller_step now s USER_RESUME
      = { s with xTimers := xTimerChangePeriod s.xTimers s.ulRemainingTick now,
                 hPrintOutput := { value := 51, pending := true },
                 console := s.console ++ ["Microwave Resumed..."] } := by
  simp only [Controller_step, switch_active_resume now s h hr]
  rfl

/-- Only a Pause writes the snapshot: a step for any other received value leaves
`ulRemainingTick` as it was. -/
theorem step_keeps_snapshot (now : Nat) (s : System) (ev : Nat) (h : ev ≠ USER_PAUSE) :
    (Controller_step now s ev).ulRemainingTick = s.ulRemainingTick := by
  show (Controller_switch now s ev).1.ulRemainingTick = s.ulRemainingTick
  unfold Controller_switch
  by_cases c1 : s.ulCond = POWER_OFF
  · rw [if_pos c1]
    by_cases e : ev = POWER_ON
    · rw [if_pos e]
    · rw [if_neg e]
  rw [if_neg c1]
  by_cases c2 : s.ulCond = POWER_ON ∨ s.ulCond = C_NORMAL
  · rw [if_pos c2]
    by_cases e0 : ev = TIMER_5s
    · rw [if_pos e0]
    rw [if_neg e0]
    by_cases e1 : ev = TIMER_10s
    · rw [if_pos e1]
    rw [if_neg e1]
    by_cases e2 : ev = TIMER_15s
    · rw [if_pos e2]
    rw [if_neg e2]
    rw [if_neg h]
    by_cases e4 : ev = USER_RESUME
    · rw [if_pos e4]
      by_cases r : s.ulRemainingTick ≠ 0
      · rw [if_pos r]
      · rw [if_neg r]
    rw [if_neg e4]
    by_cases e5 : ev = USER_CANCEL
    · rw [if_pos e5]
    rw [if_neg e5]
    by_cases e6 : ev = TIMER_EXPIRED
    · rw [if_pos e6]
    rw [if_neg e6]
    by_cases e7 : ev = C_FAILURE
    · rw [if_pos e7]
    rw [if_neg e7]
    by_cases e8 : ev = POWER_OFF
    · rw [if_pos e8]
    rw [if_neg e8]
  rw [if_neg c2]
  by_cases c3 : s.ulCond = C_FAILURE
  · rw [if_pos c3]
    by_cases e1 : ev = POWER_OFF
    · rw [if_pos e1]
    rw [if_neg e1]
    by_cases e2 : ev = C_NORMAL
    · rw [if_pos e2]
    rw [if_neg e2]
  rw [if_neg c3]

/-- A run without any Pause leaves the snapshot as it was. -/
theorem run_keeps_snapshot (deliveries : List (Nat × Nat)) (s : System)
    (h : ∀ d ∈ deliveries, d.2 ≠ USER_PAUSE) :
    (Controller_run s deliveries).ulRemainingTick = s.ulRemainingTick := by
  induction deliveries generalizing s with
  | nil => rfl
  | cons d ds ih =>
    have hd : d.2 ≠ USER_PAUSE := h d (List.mem_cons_self d ds)
    have hds : ∀ e ∈ ds, e.2 ≠ USER_PAUSE := fun e he => h e (List.mem_cons_of_mem d he)
    show (Controller_run (Controller_step d.1 s d.2) ds).ulRemainingTick = s.ulRemainingTick
    rw [ih (Controller_step d.1 s d.2) hds]
    exact step_keeps_snapshot d.1 s d.2 hd

/-! ### C1 -/

/-- C1 as stated fails. PoweredOff, the word 78 unread in the slot, and the
unlisted event `TIMER_5s` arrives: the step overwrites the slot with 0, so the
value held is not the one held before. From the initial state, whose slot is
empty, the unlisted event `USER_PAUSE` makes a notification pending. -/
theorem C1_unlisted_event_notifies_counterexample :
    (isPoweredOff poweredOffUnread ∧ TIMER_5s ≠ POWER_ON
      ∧ listedInSpecTable poweredOffUnread.ulCond TIMER_5s = false
      ∧ poweredOffUnread.hPrintOutput.value = 78
      ∧ (Controller_step 0 poweredOffUnread TIMER_5s).hPrintOutput.value = 0
      ∧ (Controller_step 0 poweredOffUnread TIMER_5s).hPrintOutput.value
          ≠ poweredOffUnread.hPrintOutput.value)
    ∧ (isPoweredOff Controller_init ∧ USER_PAUSE ≠ POWER_ON
      ∧ listedInSpecTable Controller_init.ulCond USER_PAUSE = false
      ∧ Controller_init.hPrintOutput.pending = false
      ∧ (Controller_step 0 Controller_init USER_PAUSE).hPrintOutput.pending = true
      ∧ (Controller_step 0 Controller_init USER_PAUSE).hPrintOutput.pending
          ≠ Controller_init.hPrintOutput.pending) := by
  decide

/-- C1, amended: for every controller state and every event not listed for it
in the transition table, one Controller step leaves the controller state
unchanged and publishes the all-zero word with overwrite: whatever the slot held
before, after the step it holds 0 and a notification is pending. The Display
decodes that word as emitter 0, light 0, buzzer 0 and reason code 0. While
PoweredOff every event other than PowerOn is such an event. -/
theorem C1_unlisted_event_publishes_zero (now : Nat) (s : System) (ev : Nat)
    (h : listedInSpecTable s.ulCond ev = false) :
    (Controller_step now s ev).ulCond = s.ulCond
      ∧ Controller_notified now s ev = 0
      ∧ (Controller_step now s ev).hPrintOutput = { value := 0, pending := true }
      ∧ decodeWord (Controller_step now s ev).hPrintOutput.value = (0, 0, 0, 0)
      ∧ (∀ e, e ≠ POWER_ON → listedInSpecTable POWER_OFF e = false) := by
  have hs := switch_of_not_listed now s ev h
  refine ⟨?_, ?_, ?_, ?_, ?_⟩
  · simp only [Controller_step, hs]
  · simp only [Controller_notified, hs]
  · simp only [Controller_step, hs, xTaskNotify]
    rfl
  · simp only [Controller_step, hs, xTaskNotify]
    rfl
  · intro e he
    simp [listedInSpecTable, he]

/-- C1, amended, at the initial state with the event Pause. -/
theorem C1_unlisted_event_publishes_zero_witness :
    listedInSpecTable Controller_init.ulCond USER_PAUSE = false
      ∧ (Controller_step 7 Controller_init USER_PAUSE).ulCond = Controller_init.ulCond
      ∧ (Controller_step 7 Controller_init USER_PAUSE).hPrintOutput
          = { value := 0, pending := true } :=
  have h := C1_unlisted_event_publishes_zero 7 Controller_init USER_PAUSE (by decide)
  ⟨by decide, h.1, h.2.2.1⟩

/-! ### C2 -/

/-- C2: in Failure, `C_NORMAL` leads to Active, `POWER_OFF` to PoweredOff, and
every other received value leaves the controller in Failure with the timer and
the pause snapshot as they were. -/
theorem C2_failure_exits_only_by_normal_or_off (now : Nat) (s : System) (ev : Nat)
    (h : isFailure s) :
    (ev = C_NORMAL → isActive (Controller_step now s ev))
      ∧ (ev = POWER_OFF → isPoweredOff (Controller_step now s ev))
      ∧ (ev ≠ C_NORMAL → ev ≠ POWER_OFF →
          isFailure (Controller_step now s ev)
          ∧ (Controller_step now s ev).ulCond = s.ulCond
          ∧ (Controller_step now s ev).xTimers = s.xTimers
          ∧ (Controller_step now s ev).ulRemainingTick = s.ulRemainingTick) := by
  refine ⟨?_, ?_, ?_⟩
  · intro he
    subst he
    simp [Controller_step, switch_failure_normal now s h, isActive]
  · intro he
    subst he
    simp only [Controller_step, switch_failure_off now s h, isPoweredOff]
  · intro h1 h2
    have h3 : s.ulCond = C_FAILURE := h
    simp [Controller_step, switch_failure_other now s ev h h1 h2, isFailure, h3]

/-- C2 at a Failure state, for the events StartShort, TimerExpired, ConditionNormal
and PowerOff. -/
theorem C2_failure_exits_only_by_normal_or_off_witness :
    isFailure failureIdle
      ∧ isFailure (Controller_step 5 failureIdle TIMER_5s)
      ∧ isFailure (Controller_step 5 failureIdle TIMER_EXPIRED)
      ∧ isActive (Controller_step 5 failureIdle C_NORMAL)
      ∧ isPoweredOff (Controller_step 5 failureIdle POWER_OFF) :=
  ⟨by decide,
   ((C2_failure_exits_only_by_normal_or_off 5 failureIdle TIMER_5s (by decide)).2.2
      (by decide) (by decide)).1,
   ((C2_failure_exits_only_by_normal_or_off 5 failureIdle TIMER_EXPIRED (by decide)).2.2
      (by decide) (by decide)).1,
   (C2_failure_exits_only_by_normal_or_off 5 failureIdle C_NORMAL (by decide)).1 rfl,
   (C2_failure_exits_only_by_normal_or_off 5 failureIdle POWER_OFF (by decide)).2.1 rfl⟩

/-! ### C3 -/

/-- C3: an Active controller whose timer is running with `r = expiry - now > 0`
ticks left takes a Pause step `s1`; later, after any deliveries `mid` among
which there is no Pause and after which the controller is Active, a Resume step
`s2` is taken at an arbitrary tick `later`. The Pause step stores `r`, the value
`remaining` has on the running timer, stops the timer and publishes the word for
(0,0,0,Pause); the Resume step restarts the timer with period exactly `r`, so
that `r` ticks remain, and publishes the word for (1,1,0,Resume). The controller
is Active after both steps. With `mid` empty the Resume directly follows the
Pause. -/
theorem C3_pause_resume_round_trip (now later r : Nat) (mid : List (Nat × Nat))
    (s s1 s2 : System)
    (hA : isActive s) (hrun : s.xTimers.active = true)
    (hexp : s.xTimers.expiry < WORD) (hr : r = s.xTimers.expiry - now) (hpos : 0 < r)
    (h1 : s1 = Controller_step now s USER_PAUSE)
    (hmid : ∀ d ∈ mid, d.2 ≠ USER_PAUSE)
    (hact : isActive (Controller_run s1 mid))
    (h2 : s2 = Controller_step later (Controller_run s1 mid) USER_RESUME) :
    (s.xTimers.active = true ∧ remaining s.xTimers now = r)
      ∧ s1.ulRemainingTick = r
      ∧ s1.xTimers.active = false
      ∧ s1.hPrintOutput = { value := notifyWord 0 0 0 USER_PAUSE, pending := true }
      ∧ decodeWord s1.hPrintOutput.value = (0, 0, 0, USER_PAUSE)
      ∧ isActive s1
      ∧ s2.xTimers = { active := true, period := r, expiry := (later + r) % WORD }
      ∧ remaining s2.xTimers later = r
      ∧ s2.ulRemainingTick = r
      ∧ s2.hPrintOutput = { value := notifyWord 1 1 0 USER_RESUME, pending := true }
      ∧ decodeWord s2.hPrintOutput.value = (1, 1, 0, USER_RESUME)
      ∧ isActive s2 := by
  have hlt : now < s.xTimers.expiry := by omega
  have hrem : remaining s.xTimers now = r := by
    rw [hr]
    exact sub32_of_lt hexp hlt
  have hrW : r < WORD := by
    simp only [WORD] at hexp ⊢
    omega
  rw [step_pause now s hA] at h1
  have hA1 : isActive s1 := by
    rw [h1]
    exact hA
  have hs1 : s1.ulRemainingTick = r := by
    rw [h1]
    exact hrem
  have hsm : (Controller_run s1 mid).ulRemainingTick = r := by
    rw [run_keeps_snapshot mid s1 hmid]
    exact hs1
  have hne : (Controller_run s1 mid).ulRemainingTick ≠ 0 := by omega
  rw [step_resume later (Controller_run s1 mid) hact hne, hsm] at h2
  have hA2 : isActive s2 := by
    rw [h2]
    exact hact
  have n1 : s1.hPrintOutput = { value := 40, pending := true } := by rw [h1]
  have t1 : s1.xTimers = xTimerStop s.xTimers := by rw [h1]
  have n2 : s2.hPrintOutput = { value := 51, pending := true } := by rw [h2]
  have t2 : s2.xTimers = xTimerChangePeriod (Controller_run s1 mid).xTimers r later := by
    rw [h2]
  have r2 : s2.ulRemainingTick = r := by rw [h2]
  refine ⟨⟨hrun, hrem⟩, hs1, ?_, ?_, ?_, hA1, ?_, ?_, r2, ?_, ?_, hA2⟩
  · rw [t1, xTimerStop]
  · rw [n1]
    decide
  · rw [n1]
    decide
  · rw [t2, xTimerChangePeriod]
  · rw [t2]
    exact remaining_changePeriod _ r later hrW
  · rw [n2]
    decide
  · rw [n2]
    decide

/-- C3 at the spec's scenario C: a 5000-tick countdown started at tick 0 is
paused at tick 2000 with 3000 ticks left and resumed at tick 9000, nothing being
delivered in between. -/
theorem C3_pause_resume_round_trip_witness :
    isActive cookingShort ∧ cookingShort.xTimers.active = true
      ∧ cookingShort.xTimers.expiry < WORD ∧ 3000 = cookingShort.xTimers.expiry - 2000
      ∧ (Controller_step 2000 cookingShort USER_PAUSE).ulRemainingTick = 3000
      ∧ (Controller_step 2000 cookingShort USER_PAUSE).hPrintOutput
          = { value := notifyWord 0 0 0 USER_PAUSE, pending := true }
      ∧ (Controller_step 9000 (Controller_run (Controller_step 2000 cookingShort USER_PAUSE) [])
            USER_RESUME).xTimers
          = { active := true, period := 3000, expiry := (9000 + 3000) % WORD }
      ∧ (Controller_step 9000 (Controller_run (Controller_step 2000 cookingShort USER_PAUSE) [])
            USER_RESUME).hPrintOutput
          = { value := notifyWord 1 1 0 USER_RESUME, pending := true } :=
  have h := C3_pause_resume_round_trip 2000 9000 3000 [] cookingShort
    (Controller_step 2000 cookingShort USER_PAUSE)
    (Controller_step 9000 (Controller_run (Controller_step 2000 cookingShort USER_PAUSE) [])
      USER_RESUME)
    (by decide) (by decide) (by decide) (by decide) (by decide) rfl (by decide) (by decide) rfl
  ⟨by decide, by decide, by decide, by decide, h.2.1, h.2.2.2.1, h.2.2.2.2.2.2.1,
    h.2.2.2.2.2.2.2.2.2.1⟩

/-! ### C4 -/

/-- C4: for every Active controller, whatever its timer is doing, receiving
`TIMER_5s`, `TIMER_10s` or `TIMER_15s` leaves the timer running a fresh
countdown of 5000, 10000 or 15000 ticks (milliseconds) counted from the current
tick, keeps the controller Active with `ulCond` and the pause snapshot as they
were, and publishes the word 1|2|(1<<3), 1|2|(2<<3) or 1|2|(3<<3), which decodes
to emitter 1, light 1, buzzer 0 and the start event as reason. -/
theorem C4_start_restarts_countdown (now : Nat) (s : System) (hA : isActive s) :
    ((Controller_step now s TIMER_5s).xTimers
          = { active := true, period := 5000, expiry := (now + 5000) % WORD }
        ∧ isActive (Controller_step now s TIMER_5s)
        ∧ (Controller_step now s TIMER_5s).ulCond = s.ulCond
        ∧ (Controller_step now s TIMER_5s).ulRemainingTick = s.ulRemainingTick
        ∧ (Controller_step now s TIMER_5s).hPrintOutput
            = { value := 1 ||| 2 ||| (1 <<< 3), pending := true }
        ∧ decodeWord (Controller_step now s TIMER_5s).hPrintOutput.value = (1, 1, 0, TIMER_5s))
      ∧ ((Controller_step now s TIMER_10s).xTimers
          = { active := true, period := 10000, expiry := (now + 10000) % WORD }
        ∧ isActive (Controller_step now s TIMER_10s)
        ∧ (Controller_step now s TIMER_10s).ulCond = s.ulCond
        ∧ (Controller_step now s TIMER_10s).ulRemainingTick = s.ulRemainingTick
        ∧ (Controller_step now s TIMER_10s).hPrintOutput
            = { value := 1 ||| 2 ||| (2 <<< 3), pending := true }
        ∧ decodeWord (Controller_step now s TIMER_10s).hPrintOutput.value = (1, 1, 0, TIMER_10s))
      ∧ ((Controller_step now s TIMER_15s).xTimers
          = { active := true, period := 15000, expiry := (now + 15000) % WORD }
        ∧ isActive (Controller_step now s TIMER_15s)
        ∧ (Controller_step now s TIMER_15s).ulCond = s.ulCond
        ∧ (Controller_step now s TIMER_15s).ulRemainingTick = s.ulRemainingTick
        ∧ (Controller_step now s TIMER_15s).hPrintOutput
            = { value := 1 ||| 2 ||| (3 <<< 3), pending := true }
        ∧ decodeWord (Controller_step now s TIMER_15s).hPrintOutput.value = (1, 1, 0, TIMER_15s))
      ∧ (pdMS_TO_TICKS 5000, pdMS_TO_TICKS 10000, pdMS_TO_TICKS 15000)
          = (5000, 10000, 15000) := by
  have hA' : s.ulCond = POWER_ON ∨ s.ulCond = C_NORMAL := hA
  have p5 : pdMS_TO_TICKS 5000 = 5000 := by decide
  have p10 : pdMS_TO_TICKS 10000 = 10000 := by decide
  have p15 : pdMS_TO_TICKS 15000 = 15000 := by decide
  refine ⟨?_, ?_, ?_, by decide⟩
  · simp only [Controller_step, switch_active_5s now s hA, xTaskNotify, xTimerChangePeriod,
      isActive, p5]
    exact ⟨trivial, hA', trivial, trivial, by decide, by decide⟩
  · simp only [Controller_step, switch_active_10s now s hA, xTaskNotify, xTimerChangePeriod,
      isActive, p10]
    exact ⟨trivial, hA', trivial, trivial, by decide, by decide⟩
  · simp only [Controller_step, switch_active_15s now s hA, xTaskNotify, xTimerChangePeriod,
      isActive, p15]
    exact ⟨trivial, hA', trivial, trivial, by decide, by decide⟩

/-- C4 at a controller that is already cooking: StartMedium at tick 2000
replaces the 5000-tick countdown by one of 10000 ticks due at tick 12000. -/
theorem C4_start_restarts_countdown_witness :
    isActive cookingShort
      ∧ cookingShort.xTimers = { active := true, period := 5000, expiry := 5000 }
      ∧ (Controller_step 2000 cookingShort TIMER_10s).xTimers
          = { active := true, period := 10000, expiry := (2000 + 10000) % WORD }
      ∧ (Controller_step 2000 cookingShort TIMER_10s).hPrintOutput
          = { value := 1 ||| 2 ||| (2 <<< 3), pending := true } :=
  have h := C4_start_restarts_countdown 2000 cookingShort (by decide)
  ⟨by decide, by decide, h.2.1.1, h.2.1.2.2.2.2.1⟩

/-! ### C5 -/

/-- C5: for every Active controller, receiving `C_FAILURE` moves it to Failure,
stops the timer (period and expiry kept, no longer active, so it fires at no
later tick) and publishes the word 94, which decodes to emitter 0, light 1,
buzzer 1, reason `C_FAILURE`. -/
theorem C5_condition_failure_in_active (now : Nat) (s : System) (hA : isActive s) :
    isFailure (Controller_step now s C_FAILURE)
      ∧ (Controller_step now s C_FAILURE).xTimers = xTimerStop s.xTimers
      ∧ (Controller_step now s C_FAILURE).xTimers.active = false
      ∧ (∀ later, timerFires (Controller_step now s C_FAILURE).xTimers later = false)
      ∧ (Controller_step now s C_FAILURE).hPrintOutput
          = { value := notifyWord 0 1 1 C_FAILURE, pending := true }
      ∧ decodeWord (Controller_step now s C_FAILURE).hPrintOutput.value
          = (0, 1, 1, C_FAILURE) := by
  simp only [Controller_step, switch_active_failure now s hA, xTaskNotify, xTimerStop,
    isFailure, timerFires]
  exact ⟨trivial, trivial, trivial, fun _ => by simp, by decide, by decide⟩

/-- C5 at a running 5000-tick countdown interrupted at tick 2000. -/
theorem C5_condition_failure_in_active_witness :
    isActive cookingShort ∧ cookingShort.xTimers.active = true
      ∧ isFailure (Controller_step 2000 cookingShort C_FAILURE)
      ∧ (Controller_step 2000 cookingShort C_FAILURE).xTimers.active = false
      ∧ timerFires (Controller_step 2000 cookingShort C_FAILURE).xTimers 5000 = false
      ∧ (Controller_step 2000 cookingShort C_FAILURE).hPrintOutput
          = { value := notifyWord 0 1 1 C_FAILURE, pending := true } :=
  have h := C5_condition_failure_in_active 2000 cookingShort (by decide)
  ⟨by decide, by decide, h.1, h.2.2.1, h.2.2.2.1 5000, h.2.2.2.2.1⟩

/-! ### C6 -/

/-- C6: `POWER_ON` received while PoweredOff, and `C_NORMAL` received in
Failure, both lead to Active and publish the word 80, which decodes to emitter
0, light 0, buzzer 0, reason `C_NORMAL`; the timer and the pause snapshot are
left as they were. The Controller starts PoweredOff. -/
theorem C6_entering_active (now : Nat) (sOff sFail : System)
    (hOff : isPoweredOff sOff) (hFail : isFailure sFail) :
    (isActive (Controller_step now sOff POWER_ON)
        ∧ (Controller_step now sOff POWER_ON).hPrintOutput
            = { value := notifyWord 0 0 0 C_NORMAL, pending := true }
        ∧ decodeWord (Controller_step now sOff POWER_ON).hPrintOutput.value
            = (0, 0, 0, C_NORMAL)
        ∧ (Controller_step now sOff POWER_ON).xTimers = sOff.xTimers
        ∧ (Controller_step now sOff POWER_ON).ulRemainingTick = sOff.ulRemainingTick)
      ∧ (isActive (Controller_step now sFail C_NORMAL)
        ∧ (Controller_step now sFail C_NORMAL).hPrintOutput
            = { value := notifyWord 0 0 0 C_NORMAL, pending := true }
        ∧ decodeWord (Controller_step now sFail C_NORMAL).hPrintOutput.value
            = (0, 0, 0, C_NORMAL)
        ∧ (Controller_step now sFail C_NORMAL).xTimers = sFail.xTimers
        ∧ (Controller_step now sFail C_NORMAL).ulRemainingTick = sFail.ulRemainingTick)
      ∧ isPoweredOff Controller_init := by
  refine ⟨?_, ?_, by decide⟩
  · simp only [Controller_step, switch_off_on now sOff hOff, xTaskNotify, isActive]
    exact ⟨by decide, by decide, by decide, trivial, trivial⟩
  · simp only [Controller_step, switch_failure_normal now sFail hFail, xTaskNotify, isActive]
    exact ⟨by decide, by decide, by decide, trivial, trivial⟩

/-- C6 at the initial state and at a Failure state. -/
theorem C6_entering_active_witness :
    isPoweredOff Controller_init ∧ isFailure failureIdle
      ∧ isActive (Controller_step 3 Controller_init POWER_ON)
      ∧ (Controller_step 3 Controller_init POWER_ON).hPrintOutput
          = { value := notifyWord 0 0 0 C_NORMAL, pending := true }
      ∧ isActive (Controller_step 3 failureIdle C_NORMAL)
      ∧ (Controller_step 3 failureIdle C_NORMAL).hPrintOutput
          = { value := notifyWord 0 0 0 C_NORMAL, pending := true } :=
  have h := C6_entering_active 3 Controller_init failureIdle (by decide) (by decide)
  ⟨by decide, by decide, h.1.1, h.1.2.1, h.2.1.1, h.2.1.2.1⟩

/-! ### C7 -/

/-- C7: `POWER_OFF` received by an Active controller, or by one in Failure, leads
to PoweredOff and stops the timer; a timer that was not running is left exactly
as it was. Out of Active the word published is 72, decoding to (0,0,0,PowerOff);
out of Failure it is 78, decoding to (0,1,1,PowerOff). -/
theorem C7_power_off (now : Nat) (sAct sFail : System)
    (hAct : isActive sAct) (hFail : isFailure sFail) :
    (isPoweredOff (Controller_step now sAct POWER_OFF)
        ∧ (Controller_step now sAct POWER_OFF).xTimers = xTimerStop sAct.xTimers
        ∧ (Controller_step now sAct POWER_OFF).xTimers.active = false
        ∧ (sAct.xTimers.active = false →
            (Controller_step now sAct POWER_OFF).xTimers = sAct.xTimers)
        ∧ (Controller_step now sAct POWER_OFF).hPrintOutput
            = { value := notifyWord 0 0 0 POWER_OFF, pending := true }
        ∧ decodeWord (Controller_step now sAct POWER_OFF).hPrintOutput.value
            = (0, 0, 0, POWER_OFF))
      ∧ (isPoweredOff (Controller_step now sFail POWER_OFF)
        ∧ (Controller_step now sFail POWER_OFF).xTimers = xTimerStop sFail.xTimers
        ∧ (Controller_step now sFail POWER_OFF).xTimers.active = false
        ∧ (sFail.xTimers.active = false →
            (Controller_step now sFail POWER_OFF).xTimers = sFail.xTimers)
        ∧ (Controller_step now sFail POWER_OFF).hPrintOutput
            = { value := notifyWord 0 1 1 POWER_OFF, pending := true }
        ∧ decodeWord (Controller_step now sFail POWER_OFF).hPrintOutput.value
            = (0, 1, 1, POWER_OFF)) := by
  have stop_idle : ∀ t : Timer, t.active = false → xTimerStop t = t := by
    intro t ht
    cases t
    simp only [xTimerStop] at ht ⊢
    rw [ht]
  refine ⟨?_, ?_⟩
  · simp only [Controller_step, switch_active_off now sAct hAct, xTaskNotify, isPoweredOff]
    exact ⟨trivial, trivial, rfl, stop_idle _, by decide, by decide⟩
  · simp only [Controller_step, switch_failure_off now sFail hFail, xTaskNotify, isPoweredOff]
    exact ⟨trivial, trivial, rfl, stop_idle _, by decide, by decide⟩

/-- C7 at a cooking controller (timer running) and at a Failure state whose
timer is already stopped. -/
theorem C7_power_off_witness :
    isActive cookingShort ∧ isFailure failureIdle
      ∧ cookingShort.xTimers.active = true ∧ failureIdle.xTimers.active = false
      ∧ isPoweredOff (Controller_step 2000 cookingShort POWER_OFF)
      ∧ (Controller_step 2000 cookingShort POWER_OFF).xTimers.active = false
      ∧ (Controller_step 2000 cookingShort POWER_OFF).hPrintOutput
          = { value := notifyWord 0 0 0 POWER_OFF, pending := true }
      ∧ isPoweredOff (Controller_step 2000 failureIdle POWER_OFF)
      ∧ (Controller_step 2000 failureIdle POWER_OFF).xTimers = failureIdle.xTimers
      ∧ (Controller_step 2000 failureIdle POWER_OFF).hPrintOutput
          = { value := notifyWord 0 1 1 POWER_OFF, pending := true } :=
  have h := C7_power_off 2000 cookingShort failureIdle (by decide) (by decide)
  ⟨by decide, by decide, by decide, by decide, h.1.1, h.1.2.2.1, h.1.2.2.2.2.1,
    h.2.1, h.2.2.2.2.1 (by decide), h.2.2.2.2.2.1⟩

/-! ### C8 -/

/-- C8: for every Active controller, `USER_CANCEL` stops the timer and publishes
the word 56, decoding to (0,0,0,Cancel); `TIMER_EXPIRED` leaves the timer as it
is and publishes the word 102, decoding to (0,1,1,Expired). In both cases
`ulCond` is unchanged, so the controller stays Active. -/
theorem C8_cancel_and_expired (now : Nat) (s : System) (hA : isActive s) :
    (isActive (Controller_step now s USER_CANCEL)
        ∧ (Controller_step now s USER_CANCEL).ulCond = s.ulCond
        ∧ (Controller_step now s USER_CANCEL).xTimers = xTimerStop s.xTimers
        ∧ (Controller_step now s USER_CANCEL).xTimers.active = false
        ∧ (Controller_step now s USER_CANCEL).hPrintOutput
            = { value := notifyWord 0 0 0 USER_CANCEL, pending := true }
        ∧ decodeWord (Controller_step now s USER_CANCEL).hPrintOutput.value
            = (0, 0, 0, USER_CANCEL))
      ∧ (isActive (Controller_step now s TIMER_EXPIRED)
        ∧ (Controller_step now s TIMER_EXPIRED).ulCond = s.ulCond
        ∧ (Controller_step now s TIMER_EXPIRED).xTimers = s.xTimers
        ∧ (Controller_step now s TIMER_EXPIRED).hPrintOutput
            = { value := notifyWord 0 1 1 TIMER_EXPIRED, pending := true }
        ∧ decodeWord (Controller_step now s TIMER_EXPIRED).hPrintOutput.value
            = (0, 1, 1, TIMER_EXPIRED)) := by
  have hA' : s.ulCond = POWER_ON ∨ s.ulCond = C_NORMAL := hA
  refine ⟨?_, ?_⟩
  · simp only [Controller_step, switch_active_cancel now s hA, xTaskNotify, isActive]
    exact ⟨hA', trivial, trivial, rfl, by decide, by decide⟩
  · simp only [Controller_step, switch_active_expired now s hA, xTaskNotify, isActive]
    exact ⟨hA', trivial, trivial, by decide, by decide⟩

/-- C8 at a running 5000-tick countdown: cancelled at tick 2000, and receiving
`TIMER_EXPIRED` at tick 5000. -/
theorem C8_cancel_and_expired_witness :
    isActive cookingShort
      ∧ (Controller_step 2000 cookingShort USER_CANCEL).xTimers.active = false
      ∧ (Controller_step 2000 cookingShort USER_CANCEL).hPrintOutput
          = { value := notifyWord 0 0 0 USER_CANCEL, pending := true }
      ∧ (Controller_step 5000 cookingShort TIMER_EXPIRED).xTimers = cookingShort.xTimers
      ∧ (Controller_step 5000 cookingShort TIMER_EXPIRED).hPrintOutput
          = { value := notifyWord 0 1 1 TIMER_EXPIRED, pending := true } :=
  have h := C8_cancel_and_expired 2000 cookingShort (by decide)
  have h5 := C8_cancel_and_expired 5000 cookingShort (by decide)
  ⟨by decide, h.1.2.2.2.1, h.1.2.2.2.2.1, h5.2.2.2.1, h5.2.2.2.2.1⟩

/-! ### C9 -/

/-- A value below 8 and a value shifted left by 3 share no bit: their bitwise
or is their sum. -/
theorem or_shiftLeft_three (c r : Nat) (hc : c < 8) : c ||| (r <<< 3) = c + 8 * r := by
  have h := @Nat.mul_add_lt_is_or 3 c (by simpa using hc) r
  rw [Nat.shiftLeft_eq, Nat.lor_comm, Nat.mul_comm, ← h]
  omega

/-- C9: for flags `em`, `light`, `buzzer` in {0,1} and every reason code
`r < 2 ^ 29`, the word the Controller builds is decoded by `PrintOutput` to
exactly `(em, light, buzzer, r)`. The fields do not overlap (the word is the sum
`em + 2 * light + 4 * buzzer + 8 * r`) and the word fits in 32 bits (the
unreduced or is below `2 ^ 32`). -/
theorem C9_notification_round_trip (em light buzzer r : Nat)
    (hem : em ≤ 1) (hlight : light ≤ 1) (hbuzzer : buzzer ≤ 1) (hr : r < 2 ^ 29) :
    decodeWord (notifyWord em light buzzer r) = (em, light, buzzer, r)
      ∧ notifyWord em light buzzer r = em + 2 * light + 4 * buzzer + 8 * r
      ∧ ((em <<< 0) ||| (light <<< 1) ||| (buzzer <<< 2) ||| (r <<< 3)) < 2 ^ 32 := by
  have hc : ((em <<< 0) ||| (light <<< 1) ||| (buzzer <<< 2)) = em + 2 * light + 4 * buzzer
      ∧ em + 2 * light + 4 * buzzer < 8 := by
    interval_cases em <;> interval_cases light <;> interval_cases buzzer <;> decide
  have hw : ((em <<< 0) ||| (light <<< 1) ||| (buzzer <<< 2) ||| (r <<< 3))
      = em + 2 * light + 4 * buzzer + 8 * r := by
    rw [hc.1]
    exact or_shiftLeft_three _ r hc.2
  have hlt : em + 2 * light + 4 * buzzer + 8 * r < 2 ^ 32 := by omega
  have hn : notifyWord em light buzzer r = em + 2 * light + 4 * buzzer + 8 * r := by
    unfold notifyWord
    rw [hw]
    exact Nat.mod_eq_of_lt hlt
  refine ⟨?_, hn, ?_⟩
  · rw [hn]
    unfold decodeWord
    simp only [Nat.shiftRight_eq_div_pow, Nat.and_one_is_mod]
    refine Prod.ext ?_ (Prod.ext ?_ (Prod.ext ?_ ?_)) <;> simp only [] <;> omega
  · rw [hw]
    exact hlt

/-- C9 at the word of a StartShort notification, (1,1,0,StartShort). -/
theorem C9_notification_round_trip_witness :
    decodeWord (notifyWord EM_ON LIGHT_ON BUZZER_OFF TIMER_5s)
        = (EM_ON, LIGHT_ON, BUZZER_OFF, TIMER_5s)
      ∧ notifyWord EM_ON LIGHT_ON BUZZER_OFF TIMER_5s = 11 :=
  have h := C9_notification_round_trip EM_ON LIGHT_ON BUZZER_OFF TIMER_5s
    (by decide) (by decide) (by decide) (by decide)
  ⟨h.1, h.2.1⟩

/-! ### C10 -/

/-- What `ReadKeyBoard` sends for a key is what the spec's key table gives. -/
theorem send_eq_specKeyEvent (k : Nat) : ReadKeyBoard_send k = specKeyEvent k := by
  unfold ReadKeyBoard_send ReadKeyBoard_switch specKeyEvent
  by_cases h0 : k = '1'.toNat
  · simp only [if_pos h0]
    rfl
  simp only [if_neg h0]
  by_cases h1 : k = '2'.toNat
  · simp only [if_pos h1]
    rfl
  simp only [if_neg h1]
  by_cases h2 : k = '3'.toNat
  · simp only [if_pos h2]
    rfl
  simp only [if_neg h2]
  by_cases h3 : k = 'p'.toNat
  · simp only [if_pos h3]
    rfl
  simp only [if_neg h3]
  by_cases h4 : k = 'r'.toNat
  · simp only [if_pos h4]
    rfl
  simp only [if_neg h4]
  by_cases h5 : k = 'c'.toNat
  · simp only [if_pos h5]
    rfl
  simp only [if_neg h5]
  by_cases h6 : k = '8'.toNat
  · simp only [if_pos h6]
    rfl
  simp only [if_neg h6]
  by_cases h7 : k = '9'.toNat
  · simp only [if_pos h7]
    rfl
  simp only [if_neg h7]
  by_cases h8 : k = 'n'.toNat
  · simp only [if_pos h8]
    rfl
  simp only [if_neg h8]
  by_cases h9 : k = 'f'.toNat
  · simp only [if_pos h9]
    rfl
  simp only [if_neg h9]
  rfl

/-- The spec's key table gives an event exactly on its ten keys. -/
theorem specKeyEvent_isSome_iff (k : Nat) : (specKeyEvent k).isSome = true ↔ k ∈ specKeys := by
  unfold specKeyEvent specKeys
  simp only [List.mem_cons, List.mem_singleton, List.not_mem_nil, or_false]
  by_cases h0 : k = '1'.toNat
  · simp only [if_pos h0, Option.isSome_some, true_iff]
    subst h0
    decide
  simp only [if_neg h0, h0, false_or]
  by_cases h1 : k = '2'.toNat
  · simp only [if_pos h1, Option.isSome_some, true_iff]
    subst h1
    decide
  simp only [if_neg h1, h1, false_or]
  by_cases h2 : k = '3'.toNat
  · simp only [if_pos h2, Option.isSome_some, true_iff]
    subst h2
    decide
  simp only [if_neg h2, h2, false_or]
  by_cases h3 : k = 'p'.toNat
  · simp only [if_pos h3, Option.isSome_some, true_iff]
    subst h3
    decide
  simp only [if_neg h3, h3, false_or]
  by_cases h4 : k = 'r'.toNat
  · simp only [if_pos h4, Option.isSome_some, true_iff]
    subst h4
    decide
  simp only [if_neg h4, h4, false_or]
  by_cases h5 : k = 'c'.toNat
  · simp only [if_pos h5, Option.isSome_some, true_iff]
    subst h5
    decide
  simp only [if_neg h5, h5, false_or]
  by_cases h6 : k = '8'.toNat
  · simp only [if_pos h6, Option.isSome_some, true_iff]
    subst h6
    decide
  simp only [if_neg h6, h6, false_or]
  by_cases h7 : k = '9'.toNat
  · simp only [if_pos h7, Option.isSome_some, true_iff]
    subst h7
    decide
  simp only [if_neg h7, h7, false_or]
  by_cases h8 : k = 'n'.toNat
  · simp only [if_pos h8, Option.isSome_some, true_iff]
    subst h8
    decide
  simp only [if_neg h8, h8, false_or]
  by_cases h9 : k = 'f'.toNat
  · simp only [if_pos h9, Option.isSome_some, true_iff]
    subst h9
    decide
  simp only [if_neg h9, h9, false_or]
  simp

/-- The spec's key table never gives `TIMER_EXPIRED`. -/
theorem specKeyEvent_ne_expired (k : Nat) : specKeyEvent k ≠ some TIMER_EXPIRED := by
  unfold specKeyEvent
  by_cases h0 : k = '1'.toNat
  · simp only [if_pos h0]
    decide
  simp only [if_neg h0]
  by_cases h1 : k = '2'.toNat
  · simp only [if_pos h1]
    decide
  simp only [if_neg h1]
  by_cases h2 : k = '3'.toNat
  · simp only [if_pos h2]
    decide
  simp only [if_neg h2]
  by_cases h3 : k = 'p'.toNat
  · simp only [if_pos h3]
    decide
  simp only [if_neg h3]
  by_cases h4 : k = 'r'.toNat
  · simp only [if_pos h4]
    decide
  simp only [if_neg h4]
  by_cases h5 : k = 'c'.toNat
  · simp only [if_pos h5]
    decide
  simp only [if_neg h5]
  by_cases h6 : k = '8'.toNat
  · simp only [if_pos h6]
    decide
  simp only [if_neg h6]
  by_cases h7 : k = '9'.toNat
  · simp only [if_pos h7]
    decide
  simp only [if_neg h7]
  by_cases h8 : k = 'n'.toNat
  · simp only [if_pos h8]
    decide
  simp only [if_neg h8]
  by_cases h9 : k = 'f'.toNat
  · simp only [if_pos h9]
    decide
  simp only [if_neg h9]
  simp

/-- C10: for every key code `k`, `ReadKeyBoard` sends exactly what the spec's
key table gives: an event if and only if `k` is one of the ten keys '1', '2',
'3', 'p', 'r', 'c', '8', '9', 'n', 'f', and then respectively `TIMER_5s`,
`TIMER_10s`, `TIMER_15s`, `USER_PAUSE`, `USER_RESUME`, `USER_CANCEL`, `POWER_ON`,
`POWER_OFF`, `C_NORMAL`, `C_FAILURE`. It never sends `TIMER_EXPIRED`, distinct
table keys send distinct events, and the upper-case letters send nothing. -/
theorem C10_key_to_event_table (k : Nat) :
    ReadKeyBoard_send k = specKeyEvent k
      ∧ ((ReadKeyBoard_send k).isSome = true ↔ k ∈ specKeys)
      ∧ (k ∉ specKeys → ReadKeyBoard_send k = none)
      ∧ ReadKeyBoard_send k ≠ some TIMER_EXPIRED
      ∧ (∀ k2, k ∈ specKeys → k2 ∈ specKeys →
          ReadKeyBoard_send k = ReadKeyBoard_send k2 → k = k2)
      ∧ specKeys.map ReadKeyBoard_send
          = [some TIMER_5s, some TIMER_10s, some TIMER_15s, some USER_PAUSE, some USER_RESUME,
             some USER_CANCEL, some POWER_ON, some POWER_OFF, some C_NORMAL, some C_FAILURE]
      ∧ ['P'.toNat, 'R'.toNat, 'C'.toNat, 'N'.toNat, 'F'.toNat].map ReadKeyBoard_send
          = [none, none, none, none, none] := by
  have hsend := send_eq_specKeyEvent k
  have hmem := specKeyEvent_isSome_iff k
  have hinj : ∀ a ∈ specKeys, ∀ b ∈ specKeys, specKeyEvent a = specKeyEvent b → a = b := by
    decide
  refine ⟨hsend, ?_, ?_, ?_, ?_, by decide, by decide⟩
  · rw [hsend]
    exact hmem
  · intro hk
    rw [hsend]
    cases h : specKeyEvent k with
    | none => rfl
    | some v =>
      exact absurd (hmem.mp (by rw [h]; rfl)) hk
  · rw [hsend]
    exact specKeyEvent_ne_expired k
  · intro k2 hk hk2 he
    rw [hsend, send_eq_specKeyEvent k2] at he
    exact hinj k hk k2 hk2 he

/-! ### Display: the read step and the arms of the switch -/

/-- The read step with a notification pending: the four fields are taken from
the word and the slot is emptied. -/
theorem read_pending (n : NotifySlot) (d : Display) (h : n.pending = true) :
    PrintOutput_read n d
      = ({ d with ulEM := (n.value >>> 0) &&& 0x1,
                  ulLight := (n.value >>> 1) &&& 0x1,
                  ulBuzzer := (n.value >>> 2) &&& 0x1,
                  ulState := n.value >>> 3 },
          { value := 0, pending := false }) := by
  simp [PrintOutput_read, xTaskNotifyWait, h]

/-- The read step with nothing pending changes neither the locals nor the slot. -/
theorem read_empty (n : NotifySlot) (d : Display) (h : n.pending = false) :
    PrintOutput_read n d = (d, n) := by
  simp [PrintOutput_read, xTaskNotifyWait, h]

/-- Lines 345-351: the countdown arm. -/
theorem render_countdown (now : Nat) (t : Timer) (d : Display)
    (h : d.ulState = TIMER_5s ∨ d.ulState = TIMER_10s ∨ d.ulState = TIMER_15s
      ∨ d.ulState = USER_RESUME) :
    PrintOutput_render now t d
      = ({ d with ulRemainingTick := remaining t now },
          some (Line.countdown d.ulEM d.ulLight d.ulBuzzer (remaining t now / 1000))) := by
  unfold PrintOutput_render
  rw [if_pos h]
  rfl

/-- Lines 355-364: the Expired arm. -/
theorem render_expired (now : Nat) (t : Timer) (d : Display) (h : d.ulState = TIMER_EXPIRED) :
    PrintOutput_render now t d
      = (if (d.timesUpBeepCnt + 1) % WORD = 3 then
            { d with ulState := DEFAULT_STATE, timesUpBeepCnt := 0 }
          else { d with timesUpBeepCnt := (d.timesUpBeepCnt + 1) % WORD },
          some (Line.fields d.ulEM d.ulLight d.ulBuzzer)) := by
  unfold PrintOutput_render
  rw [h]
  rw [if_neg (by decide), if_neg (by decide), if_pos rfl]
  by_cases hc : (d.timesUpBeepCnt + 1) % WORD = 3
  · simp only [hc, if_true]
  · simp only [hc, if_false]

/-- Lines 365-369: the Cancel and PowerOff arm. -/
theorem render_cancel_off (now : Nat) (t : Timer) (d : Display)
    (h : d.ulState = USER_CANCEL ∨ d.ulState = POWER_OFF) :
    PrintOutput_render now t d
      = ({ d with ulState := DEFAULT_STATE }, some (Line.fields d.ulEM d.ulLight d.ulBuzzer)) := by
  unfold PrintOutput_render
  rcases h with h | h <;> rw [h] <;>
    rw [if_neg (by decide), if_neg (by decide), if_neg (by decide), if_pos (by decide)]

/-- Lines 374-385: the Failure arm. -/
theorem render_failure (now : Nat) (t : Timer) (d : Display) (h : d.ulState = C_FAILURE) :
    PrintOutput_render now t d
      = ({ d with beepCnt := (d.beepCnt + 1) % WORD },
          if d.beepCnt % 2 = 0 then some (Line.failure d.ulEM d.ulLight d.ulBuzzer)
          else some Line.failureOff) := by
  unfold PrintOutput_render
  rw [h]
  rw [if_neg (by decide), if_neg (by decide), if_neg (by decide), if_neg (by decide),
    if_neg (by decide), if_pos rfl]

/-- Lines 386-387: the Idle arm prints nothing and changes nothing. -/
theorem render_default (now : Nat) (t : Timer) (d : Display) (h : d.ulState = DEFAULT_STATE) :
    PrintOutput_render now t d = (d, none) := by
  unfold PrintOutput_render
  rw [h]
  rw [if_neg (by decide), if_neg (by decide), if_neg (by decide), if_neg (by decide),
    if_neg (by decide), if_neg (by decide), if_pos rfl]

/-- Once the reason is Idle and nothing is pending, every further cycle prints
nothing and leaves the locals and the slot as they are. -/
theorem run_idle (ticks : List (Nat × Timer)) (d : Display) (n : NotifySlot)
    (hd : d.ulState = DEFAULT_STATE) (hn : n.pending = false) :
    PrintOutput_run d n ticks = (d, n, List.replicate ticks.length none) := by
  induction ticks with
  | nil => rfl
  | cons c rest ih =>
    simp only [PrintOutput_run, PrintOutput_cycle, read_empty n d hn,
      render_default c.1 c.2 d hd, ih, List.length_cons, List.replicate_succ]

/-- A cycle that finds a notification pending does what a cycle with nothing
pending does on the locals the read step produces. -/
theorem cycle_after_read (now : Nat) (t : Timer) (n : NotifySlot) (d : Display)
    (h : n.pending = true) :
    PrintOutput_cycle now t n d
      = PrintOutput_cycle now t { value := 0, pending := false } (PrintOutput_read n d).1 := by
  simp only [PrintOutput_cycle, read_pending n d h, read_empty { value := 0, pending := false }]

/-- A run whose first cycle finds a notification pending is the run, with
nothing pending, from the locals the read step produces. -/
theorem run_after_read (c : Nat × Timer) (rest : List (Nat × Timer)) (n : NotifySlot)
    (d : Display) (h : n.pending = true) :
    PrintOutput_run d n (c :: rest)
      = PrintOutput_run (PrintOutput_read n d).1 { value := 0, pending := false }
          (c :: rest) := by
  simp only [PrintOutput_run, cycle_after_read c.1 c.2 n d h]

/-- One cycle in the Expired arm with nothing pending. -/
theorem cycle_expired (now : Nat) (t : Timer) (n : NotifySlot) (d : Display)
    (hd : d.ulState = TIMER_EXPIRED) (hn : n.pending = false) :
    PrintOutput_cycle now t n d
      = (if (d.timesUpBeepCnt + 1) % WORD = 3 then
            { d with ulState := DEFAULT_STATE, timesUpBeepCnt := 0 }
          else { d with timesUpBeepCnt := (d.timesUpBeepCnt + 1) % WORD },
          n, some (Line.fields d.ulEM d.ulLight d.ulBuzzer)) := by
  simp only [PrintOutput_cycle, read_empty n d hn, render_expired now t d hd]

/-- With the counter at 2, an Expired reason is rendered once more and decays. -/
theorem run_expired_two (c1 : Nat × Timer) (rest : List (Nat × Timer)) (n : NotifySlot)
    (d : Display) (hd : d.ulState = TIMER_EXPIRED) (hn : n.pending = false)
    (hc : d.timesUpBeepCnt = 2) :
    PrintOutput_run d n (c1 :: rest)
      = ({ d with ulState := DEFAULT_STATE, timesUpBeepCnt := 0 }, n,
          some (Line.fields d.ulEM d.ulLight d.ulBuzzer)
            :: List.replicate rest.length none) := by
  have h3 : (2 + 1) % WORD = 3 := by decide
  simp only [PrintOutput_run, cycle_expired c1.1 c1.2 n d hd hn, hc, h3, if_true]
  rw [run_idle rest _ n rfl hn]

/-- With the counter at 1, an Expired reason is rendered twice and decays. -/
theorem run_expired_one (c1 c2 : Nat × Timer) (rest : List (Nat × Timer)) (n : NotifySlot)
    (d : Display) (hd : d.ulState = TIMER_EXPIRED) (hn : n.pending = false)
    (hc : d.timesUpBeepCnt = 1) :
    PrintOutput_run d n (c1 :: c2 :: rest)
      = ({ d with ulState := DEFAULT_STATE, timesUpBeepCnt := 0 }, n,
          some (Line.fields d.ulEM d.ulLight d.ulBuzzer)
            :: some (Line.fields d.ulEM d.ulLight d.ulBuzzer)
            :: List.replicate rest.length none) := by
  have h2 : ¬ (1 + 1) % WORD = 3 := by decide
  have e2 : (1 + 1) % WORD = 2 := by decide
  rw [PrintOutput_run, cycle_expired c1.1 c1.2 n d hd hn, hc, if_neg h2, e2]
  simp only []
  rw [run_expired_two c2 rest n { d with timesUpBeepCnt := 2 } hd hn rfl]

/-- With the counter at 0, an Expired reason is rendered on three cycles, the
third of which sets the reason to Idle; later cycles print nothing. -/
theorem run_expired_zero (c1 c2 c3 : Nat × Timer) (rest : List (Nat × Timer))
    (n : NotifySlot) (d : Display) (hd : d.ulState = TIMER_EXPIRED) (hn : n.pending = false)
    (hc : d.timesUpBeepCnt = 0) :
    PrintOutput_run d n (c1 :: c2 :: c3 :: rest)
      = ({ d with ulState := DEFAULT_STATE, timesUpBeepCnt := 0 }, n,
          some (Line.fields d.ulEM d.ulLight d.ulBuzzer)
            :: some (Line.fields d.ulEM d.ulLight d.ulBuzzer)
            :: some (Line.fields d.ulEM d.ulLight d.ulBuzzer)
            :: List.replicate rest.length none) := by
  have h1 : ¬ (0 + 1) % WORD = 3 := by decide
  have e1 : (0 + 1) % WORD = 1 := by decide
  rw [PrintOutput_run, cycle_expired c1.1 c1.2 n d hd hn, hc, if_neg h1, e1]
  simp only []
  rw [run_expired_one c2 c3 rest n { d with timesUpBeepCnt := 1 } hd hn rfl]

/-- One cycle in the Failure arm with nothing pending. -/
theorem cycle_failure (now : Nat) (t : Timer) (n : NotifySlot) (d : Display)
    (hd : d.ulState = C_FAILURE) (hn : n.pending = false) :
    PrintOutput_cycle now t n d
      = ({ d with beepCnt := (d.beepCnt + 1) % WORD }, n,
          if d.beepCnt % 2 = 0 then some (Line.failure d.ulEM d.ulLight d.ulBuzzer)
          else some Line.failureOff) := by
  simp only [PrintOutput_cycle, read_empty n d hn, render_failure now t d hd]

/-- A run in the Failure arm with nothing pending: the reason and the cached
fields stay, and cycle `i` prints the fields line when `beepCnt + i` is even and
the all-zero line when it is odd. -/
theorem run_failure (ticks : List (Nat × Timer)) (d : Display) (n : NotifySlot)
    (hd : d.ulState = C_FAILURE) (hn : n.pending = false) :
    (PrintOutput_run d n ticks).1.ulState = C_FAILURE
      ∧ (PrintOutput_run d n ticks).2.2.length = ticks.length
      ∧ ∀ i, i < ticks.length →
          (PrintOutput_run d n ticks).2.2[i]?
            = some (some (if (d.beepCnt + i) % 2 = 0
                then Line.failure d.ulEM d.ulLight d.ulBuzzer else Line.failureOff)) := by
  induction ticks generalizing d with
  | nil =>
    refine ⟨hd, rfl, ?_⟩
    intro i hi
    exact absurd hi (Nat.not_lt_zero i)
  | cons c rest ih =>
    have hstep := cycle_failure c.1 c.2 n d hd hn
    obtain ⟨ih1, ih2, ih3⟩ := ih { d with beepCnt := (d.beepCnt + 1) % WORD } hd
    simp only [PrintOutput_run, hstep]
    refine ⟨ih1, ?_, ?_⟩
    · simp only [List.length_cons, ih2]
    · intro i hi
      cases i with
      | zero =>
        simp only [List.getElem?_cons_zero, Nat.add_zero]
        split_ifs <;> rfl
      | succ j =>
        have hj : j < rest.length := by
          simp only [List.length_cons] at hi
          omega
        have hpar : ((d.beepCnt + 1) % WORD + j) % 2 = (d.beepCnt + (j + 1)) % 2 := by
          simp only [WORD]
          omega
        simp only [List.getElem?_cons_succ]
        rw [ih3 j hj]
        simp only [hpar]

/-! ### C11 -/

/-- C11 fails on the code at a reachable Display state. `displayInterrupted` has
rendered an Expired notification once, then read a StartShort notification and
shown its countdown; its counter `timesUpBeepCnt` is still 1. When the second
countdown expires, the Display reads the Expired word 102, nothing further
arrives, and it prints the fields on two cycles only, setting the reason to Idle
on the second. From the initial locals the same word is printed on three
cycles. -/
theorem C11_expired_decay_cut_short :
    (PrintOutput_cycle 5000 (xTimerStop cookingShort.xTimers) (slotHolding 102)
        PrintOutput_init).2.2 = some (Line.fields 0 1 1)
      ∧ displayInterrupted.ulState = TIMER_5s
      ∧ displayInterrupted.timesUpBeepCnt = 1
      ∧ notifyWord 0 1 1 TIMER_EXPIRED = 102
      ∧ (PrintOutput_run displayInterrupted (slotHolding 102) fourQuietCycles).2.2
          = [some (Line.fields 0 1 1), some (Line.fields 0 1 1), none, none]
      ∧ (PrintOutput_run displayInterrupted (slotHolding 102)
            (fourQuietCycles.take 1)).1.ulState = TIMER_EXPIRED
      ∧ (PrintOutput_run displayInterrupted (slotHolding 102)
            (fourQuietCycles.take 2)).1.ulState = DEFAULT_STATE
      ∧ (PrintOutput_run PrintOutput_init (slotHolding 102) fourQuietCycles).2.2
          = [some (Line.fields 0 1 1), some (Line.fields 0 1 1), some (Line.fields 0 1 1),
             none] := by
  decide

/-! ### C12 -/

/-- C12: for every Display state, a cycle that reads a word whose reason is
Cancel or PowerOff prints that word's emitter, light and buzzer fields, sets the
reason to Idle and leaves nothing pending; every following cycle without a new
notification prints nothing and the reason stays Idle. -/
theorem C12_cancel_poweroff_rendered_once (now : Nat) (t : Timer)
    (ticks : List (Nat × Timer)) (d : Display) (w : Nat)
    (hw : w >>> 3 = USER_CANCEL ∨ w >>> 3 = POWER_OFF) :
    (PrintOutput_cycle now t (slotHolding w) d).2.2
        = some (Line.fields (decodeWord w).1 (decodeWord w).2.1 (decodeWord w).2.2.1)
      ∧ (PrintOutput_cycle now t (slotHolding w) d).1.ulState = DEFAULT_STATE
      ∧ (PrintOutput_cycle now t (slotHolding w) d).2.1.pending = false
      ∧ (PrintOutput_run d (slotHolding w) ((now, t) :: ticks)).2.2
          = some (Line.fields (decodeWord w).1 (decodeWord w).2.1 (decodeWord w).2.2.1)
              :: List.replicate ticks.length none
      ∧ (PrintOutput_run d (slotHolding w) ((now, t) :: ticks)).1.ulState = DEFAULT_STATE := by
  have hr := read_pending (slotHolding w) d rfl
  have hc : PrintOutput_cycle now t (slotHolding w) d
      = ({ d with ulEM := (w >>> 0) &&& 0x1,
                  ulLight := (w >>> 1) &&& 0x1,
                  ulBuzzer := (w >>> 2) &&& 0x1,
                  ulState := DEFAULT_STATE },
          { value := 0, pending := false },
          some (Line.fields ((w >>> 0) &&& 0x1) ((w >>> 1) &&& 0x1) ((w >>> 2) &&& 0x1))) := by
    simp only [PrintOutput_cycle, hr]
    rw [render_cancel_off now t _ hw]
    rfl
  refine ⟨?_, ?_, ?_, ?_, ?_⟩
  · rw [hc]
    rfl
  · rw [hc]
  · rw [hc]
  · simp only [PrintOutput_run, hc]
    rw [run_idle ticks _ _ rfl rfl]
    rfl
  · simp only [PrintOutput_run, hc]
    rw [run_idle ticks _ _ rfl rfl]

/-- C12 at the Cancel word 56 and the PowerOff-out-of-Failure word 78, read by
a Display that was showing a countdown, followed by four quiet cycles. -/
theorem C12_cancel_poweroff_rendered_once_witness :
    (56 >>> 3 = USER_CANCEL ∧ 78 >>> 3 = POWER_OFF)
      ∧ (PrintOutput_run displayInterrupted (slotHolding 56)
            ((10000, xTimerStop cookingShort.xTimers) :: fourQuietCycles)).2.2
          = some (Line.fields 0 0 0) :: List.replicate 4 none
      ∧ (PrintOutput_run displayInterrupted (slotHolding 78)
            ((10000, xTimerStop cookingShort.xTimers) :: fourQuietCycles)).2.2
          = some (Line.fields 0 1 1) :: List.replicate 4 none :=
  ⟨by decide,
   (C12_cancel_poweroff_rendered_once 10000 (xTimerStop cookingShort.xTimers) fourQuietCycles
      displayInterrupted 56 (by decide)).2.2.2.1,
   (C12_cancel_poweroff_rendered_once 10000 (xTimerStop cookingShort.xTimers) fourQuietCycles
      displayInterrupted 78 (by decide)).2.2.2.1⟩

/-! ### C13 -/

/-- C13: for every Display state whose reason is Failure and every run of wake
cycles during which nothing is pending, each cycle prints one line, the reason
is still Failure at the end, cycle `i` prints the line with the cached fields
when `beepCnt + i` is even and the all-zero line when it is odd, and so any two
consecutive cycles print one line of each kind. -/
theorem C13_failure_lines_alternate (ticks : List (Nat × Timer)) (d : Display)
    (n : NotifySlot) (hd : d.ulState = C_FAILURE) (hn : n.pending = false) :
    (PrintOutput_run d n ticks).2.2.length = ticks.length
      ∧ (PrintOutput_run d n ticks).1.ulState = C_FAILURE
      ∧ (∀ i, i < ticks.length →
          (PrintOutput_run d n ticks).2.2[i]?
            = some (some (if (d.beepCnt + i) % 2 = 0
                then Line.failure d.ulEM d.ulLight d.ulBuzzer else Line.failureOff)))
      ∧ (∀ i, i + 1 < ticks.length →
          ((PrintOutput_run d n ticks).2.2[i]?
                = some (some (Line.failure d.ulEM d.ulLight d.ulBuzzer))
              ∧ (PrintOutput_run d n ticks).2.2[i + 1]? = some (some Line.failureOff))
            ∨ ((PrintOutput_run d n ticks).2.2[i]? = some (some Line.failureOff)
              ∧ (PrintOutput_run d n ticks).2.2[i + 1]?
                = some (some (Line.failure d.ulEM d.ulLight d.ulBuzzer)))) := by
  obtain ⟨h1, h2, h3⟩ := run_failure ticks d n hd hn
  refine ⟨h2, h1, h3, ?_⟩
  intro i hi
  have hi0 : i < ticks.length := by omega
  rw [h3 i hi0, h3 (i + 1) hi]
  by_cases hp : (d.beepCnt + i) % 2 = 0
  · have hq : ¬ (d.beepCnt + (i + 1)) % 2 = 0 := by omega
    rw [if_pos hp, if_neg hq]
    exact Or.inl ⟨rfl, rfl⟩
  · have hq : (d.beepCnt + (i + 1)) % 2 = 0 := by omega
    rw [if_neg hp, if_pos hq]
    exact Or.inr ⟨rfl, rfl⟩

/-- C13 at the Display that has just read the Failure word 94 from its initial
locals, over four further cycles. -/
theorem C13_failure_lines_alternate_witness :
    (PrintOutput_cycle 10000 (xTimerStop cookingShort.xTimers) (slotHolding 94)
        PrintOutput_init).1.ulState = C_FAILURE
      ∧ slotEmpty.pending = false
      ∧ (PrintOutput_run
            (PrintOutput_cycle 10000 (xTimerStop cookingShort.xTimers) (slotHolding 94)
              PrintOutput_init).1 slotEmpty fourQuietCycles).2.2[1]?
          = some (some (Line.failure 0 1 1))
      ∧ (PrintOutput_run
            (PrintOutput_cycle 10000 (xTimerStop cookingShort.xTimers) (slotHolding 94)
              PrintOutput_init).1 slotEmpty fourQuietCycles).2.2[2]?
          = some (some Line.failureOff) :=
  have h := C13_failure_lines_alternate fourQuietCycles
    (PrintOutput_cycle 10000 (xTimerStop cookingShort.xTimers) (slotHolding 94)
      PrintOutput_init).1 slotEmpty (by decide) (by decide)
  ⟨by decide, by decide, h.2.2.1 1 (by decide), h.2.2.1 2 (by decide)⟩

/-! ### C14 -/

/-- As an integer, `remaining` is the expiry time minus the tick count, reduced
modulo `2 ^ 32`. -/
theorem remaining_eq_int (t : Timer) (now : Nat) :
    ((remaining t now : Nat) : Int) = ((t.expiry : Int) - (now : Int)) % (2 : Int) ^ 32 := by
  unfold remaining sub32 xTimerGetExpiryTime
  simp only [WORD]
  omega

/-- C14: in every wake cycle in which the reason after the read step is
StartShort, StartMedium, StartLong or Resume, the line printed is the countdown
line with the cached fields and `((expiry - now) mod 2 ^ 32) / 1000` seconds,
computed from the timer's expiry time and the tick count of that cycle,
whatever the slot held. For one expiry time below `2 ^ 32` and
`now1 ≤ now2 ≤ expiry` the seconds at `now2` are at most those at `now1`, and
with `now2 = now1 + 1000` and at least 1000 ticks left at `now1` they are
smaller by exactly 1. -/
theorem C14_countdown_seconds (now now1 now2 : Nat) (t : Timer) (n : NotifySlot)
    (d : Display)
    (hs : (PrintOutput_read n d).1.ulState = TIMER_5s
      ∨ (PrintOutput_read n d).1.ulState = TIMER_10s
      ∨ (PrintOutput_read n d).1.ulState = TIMER_15s
      ∨ (PrintOutput_read n d).1.ulState = USER_RESUME)
    (hexp : t.expiry < WORD) (h12 : now1 ≤ now2) (h2 : now2 ≤ t.expiry) :
    (PrintOutput_cycle now t n d).2.2
        = some (Line.countdown (PrintOutput_read n d).1.ulEM (PrintOutput_read n d).1.ulLight
            (PrintOutput_read n d).1.ulBuzzer (remaining t now / 1000))
      ∧ ((remaining t now : Nat) : Int) = ((t.expiry : Int) - (now : Int)) % (2 : Int) ^ 32
      ∧ remaining t now2 / 1000 ≤ remaining t now1 / 1000
      ∧ (now2 = now1 + 1000 → 1000 ≤ t.expiry - now1 →
          remaining t now2 / 1000 + 1 = remaining t now1 / 1000) := by
  have r1 : remaining t now1 = t.expiry - now1 := by
    unfold remaining sub32 xTimerGetExpiryTime
    simp only [WORD] at hexp ⊢
    omega
  have r2 : remaining t now2 = t.expiry - now2 := by
    unfold remaining sub32 xTimerGetExpiryTime
    simp only [WORD] at hexp ⊢
    omega
  refine ⟨?_, remaining_eq_int t now, ?_, ?_⟩
  · simp only [PrintOutput_cycle, render_countdown now t _ hs]
  · rw [r1, r2]
    omega
  · intro h1000 hleft
    rw [r1, r2]
    omega

/-- C14 at the spec's scenario B: the StartShort word 11 is read at tick 0 of a
5000-tick countdown due at tick 5000; the Display shows 5 seconds, and one
second later 4. -/
theorem C14_countdown_seconds_witness :
    (PrintOutput_read (slotHolding 11) PrintOutput_init).1.ulState = TIMER_5s
      ∧ cookingShort.xTimers.expiry = 5000
      ∧ (PrintOutput_cycle 0 cookingShort.xTimers (slotHolding 11) PrintOutput_init).2.2
          = some (Line.countdown 1 1 0 5)
      ∧ remaining cookingShort.xTimers 1000 / 1000 + 1
          = remaining cookingShort.xTimers 0 / 1000 :=
  have h := C14_countdown_seconds 0 0 1000 cookingShort.xTimers (slotHolding 11)
    PrintOutput_init (Or.inl (by decide)) (by decide) (by decide) (by decide)
  ⟨by decide, by decide, h.1, h.2.2.2 (by decide) (by decide)⟩

/-! ### Inversion of the Controller switch -/

/-- Lines 262-273: `USER_RESUME` received in the Active arm with the snapshot at
0: only the two log lines are printed. -/
theorem switch_active_resume_zero (now : Nat) (s : System) (h : isActive s)
    (hr : s.ulRemainingTick = 0) :
    Controller_switch now s USER_RESUME
      = ({ s with console := s.console ++ ["Microwave Resumed...", "No remaining time left..."] },
          0) := by
  have h0 := active_ne_off h
  have h1 : s.ulCond = POWER_ON ∨ s.ulCond = C_NORMAL := h
  have hr' : ¬ s.ulRemainingTick ≠ 0 := fun hne => hne hr
  unfold Controller_switch
  rw [if_neg h0, if_pos h1]
  have e1 : ¬ USER_RESUME = TIMER_5s := by decide
  have e2 : ¬ USER_RESUME = TIMER_10s := by decide
  have e3 : ¬ USER_RESUME = TIMER_15s := by decide
  have e4 : ¬ USER_RESUME = USER_PAUSE := by decide
  rw [if_neg e1, if_neg e2, if_neg e3, if_neg e4, if_pos rfl, if_neg hr']

/-- Every way through the Controller switch: either nothing matches and the
switch returns the state as it is with `ulNotifiedValue = 0`, or exactly one of
the thirteen arms below is taken. -/
theorem switch_cases (now : Nat) (s : System) (ev : Nat) :
    Controller_switch now s ev = (s, 0)
      ∨ ((isActive s) ∧ ev = USER_RESUME ∧ s.ulRemainingTick = 0
          ∧ Controller_switch now s ev
              = ({ s with console := s.console ++ ["Microwave Resumed...", "No remaining time left..."] },
                  0))
      ∨ ((isPoweredOff s) ∧ ev = POWER_ON
          ∧ Controller_switch now s ev
              = ({ s with ulCond := C_NORMAL },
                  notifyWord EM_OFF LIGHT_OFF BUZZER_OFF C_NORMAL))
      ∨ ((isActive s) ∧ ev = TIMER_5s
          ∧ Controller_switch now s ev
              = ({ s with xTimers := xTimerChangePeriod s.xTimers (pdMS_TO_TICKS 5000) now,
                          console := s.console ++ ["5s Timer starts..."] },
                  notifyWord EM_ON LIGHT_ON BUZZER_OFF TIMER_5s))
      ∨ ((isActive s) ∧ ev = TIMER_10s
          ∧ Controller_switch now s ev
              = ({ s with xTimers := xTimerChangePeriod s.xTimers (pdMS_TO_TICKS 10000) now,
                          console := s.console ++ ["10s Timer starts..."] },
                  notifyWord EM_ON LIGHT_ON BUZZER_OFF TIMER_10s))
      ∨ ((isActive s) ∧ ev = TIMER_15s
          ∧ Controller_switch now s ev
              = ({ s with xTimers := xTimerChangePeriod s.xTimers (pdMS_TO_TICKS 15000) now,
                          console := s.console ++ ["15s Timer starts..."] },
                  notifyWord EM_ON LIGHT_ON BUZZER_OFF TIMER_15s))
      ∨ ((isActive s) ∧ ev = USER_PAUSE
          ∧ Controller_switch now s ev
              = ({ s with xTimers := xTimerStop s.xTimers,
                          ulRemainingTick := sub32 (xTimerGetExpiryTime (xTimerStop s.xTimers)) now,
                          console := s.console ++ ["Microwave Paused..."] },
                  notifyWord EM_OFF LIGHT_OFF BUZZER_OFF USER_PAUSE))
      ∨ ((isActive s) ∧ ev = USER_CANCEL
          ∧ Controller_switch now s ev
              = ({ s with xTimers := xTimerStop s.xTimers,
                          console := s.console ++ ["Microwave Cancelled..."] },
                  notifyWord EM_OFF LIGHT_OFF BUZZER_OFF USER_CANCEL))
      ∨ ((isActive s) ∧ ev = TIMER_EXPIRED
          ∧ Controller_switch now s ev
              = ({ s with console := s.console ++ ["Times Up! Food is ready..."] },
                  notifyWord EM_OFF LIGHT_ON BUZZER_ON TIMER_EXPIRED))
      ∨ ((isActive s) ∧ ev = C_FAILURE
          ∧ Controller_switch now s ev
              = ({ s with ulCond := C_FAILURE,
                          xTimers := xTimerStop s.xTimers,
                          console := s.console ++ ["Condition Fail..."] },
                  notifyWord EM_OFF LIGHT_ON BUZZER_ON C_FAILURE))
      ∨ ((isActive s) ∧ ev = POWER_OFF
          ∧ Controller_switch now s ev
              = ({ s with ulCond := POWER_OFF,
                          xTimers := xTimerStop s.xTimers },
                  notifyWord EM_OFF LIGHT_OFF BUZZER_OFF POWER_OFF))
      ∨ ((isActive s) ∧ ev = USER_RESUME ∧ s.ulRemainingTick ≠ 0
          ∧ Controller_switch now s ev
              = ({ s with xTimers := xTimerChangePeriod s.xTimers s.ulRemainingTick now,
                          console := s.console ++ ["Microwave Resumed..."] },
                  notifyWord EM_ON LIGHT_ON BUZZER_OFF USER_RESUME))
      ∨ ((isFailure s) ∧ ev = POWER_OFF
          ∧ Controller_switch now s ev
              = ({ s with ulCond := POWER_OFF,
                          xTimers := xTimerStop s.xTimers },
                  notifyWord EM_OFF LIGHT_ON BUZZER_ON POWER_OFF))
      ∨ ((isFailure s) ∧ ev = C_NORMAL
          ∧ Controller_switch now s ev
              = ({ s with ulCond := C_NORMAL,
                          console := s.console ++ ["Condition Normal..."] },
                  notifyWord EM_OFF LIGHT_OFF BUZZER_OFF C_NORMAL)) := by
  by_cases hOff : s.ulCond = POWER_OFF
  · by_cases e : ev = POWER_ON
    · right; right; left
      subst e
      exact ⟨hOff, rfl, switch_off_on now s hOff⟩
    · left
      apply switch_of_not_listed
      simp [listedInSpecTable, hOff, e]
  by_cases hA : isActive s
  · have hA' : s.ulCond = POWER_ON ∨ s.ulCond = C_NORMAL := hA
    by_cases e0 : ev = TIMER_5s
    · right; right; right; left
      subst e0
      exact ⟨hA, rfl, switch_active_5s now s hA⟩
    by_cases e1 : ev = TIMER_10s
    · right; right; right; right; left
      subst e1
      exact ⟨hA, rfl, switch_active_10s now s hA⟩
    by_cases e2 : ev = TIMER_15s
    · right; right; right; right; right; left
      subst e2
      exact ⟨hA, rfl, switch_active_15s now s hA⟩
    by_cases e3 : ev = USER_PAUSE
    · right; right; right; right; right; right; left
      subst e3
      exact ⟨hA, rfl, switch_active_pause now s hA⟩
    by_cases e4 : ev = USER_CANCEL
    · right; right; right; right; right; right; right; left
      subst e4
      exact ⟨hA, rfl, switch_active_cancel now s hA⟩
    by_cases e5 : ev = TIMER_EXPIRED
    · right; right; right; right; right; right; right; right; left
      subst e5
      exact ⟨hA, rfl, switch_active_expired now s hA⟩
    by_cases e6 : ev = C_FAILURE
    · right; right; right; right; right; right; right; right; right; left
      subst e6
      exact ⟨hA, rfl, switch_active_failure now s hA⟩
    by_cases e7 : ev = POWER_OFF
    · right; right; right; right; right; right; right; right; right; right; left
      subst e7
      exact ⟨hA, rfl, switch_active_off now s hA⟩
    by_cases er : ev = USER_RESUME
    · subst er
      by_cases hr : s.ulRemainingTick = 0
      · right; left
        exact ⟨hA, rfl, hr, switch_active_resume_zero now s hA hr⟩
      · right; right; right; right; right; right; right; right; right; right; right; left
        exact ⟨hA, rfl, hr, switch_active_resume now s hA hr⟩
    left
    apply switch_of_not_listed
    simp [listedInSpecTable, hOff, hA', e0, e1, e2, e3, e4, e5, e6, e7, er]
  have hA' : ¬ (s.ulCond = POWER_ON ∨ s.ulCond = C_NORMAL) := hA
  by_cases hF : isFailure s
  · have hF' : s.ulCond = C_FAILURE := hF
    by_cases e0 : ev = POWER_OFF
    · right; right; right; right; right; right; right; right; right; right; right; right; left
      subst e0
      exact ⟨hF, rfl, switch_failure_off now s hF⟩
    by_cases e1 : ev = C_NORMAL
    · right; right; right; right; right; right; right; right; right; right; right; right; right
      subst e1
      exact ⟨hF, rfl, switch_failure_normal now s hF⟩
    left
    exact switch_failure_other now s ev hF e1 e0
  have hF' : ¬ s.ulCond = C_FAILURE := hF
  left
  apply switch_of_not_listed
  simp [listedInSpecTable, hOff, hA', hF']

/-! ### C15 -/

/-- C15: in a wake cycle that finds nothing pending (`nE`), the read step leaves
every local of the Display and the slot as they were and the cycle renders from
the cached values. In a cycle that finds a word pending (`nP`), the cached
emitter, light, buzzer and reason become the decode of that word (bit 0, bit 1,
bit 2, the word shifted right by 3), the other locals are kept, the cycle
renders from the new values, and the notification is consumed: a following read
finds nothing, until the Controller publishes again. -/
theorem C15_display_field_caching (now : Nat) (t : Timer) (nE nP : NotifySlot) (d : Display)
    (hE : nE.pending = false) (hP : nP.pending = true) :
    ((PrintOutput_read nE d).1 = d
        ∧ (PrintOutput_read nE d).2 = nE
        ∧ PrintOutput_cycle now t nE d
            = ((PrintOutput_render now t d).1, nE, (PrintOutput_render now t d).2))
      ∧ (((PrintOutput_read nP d).1.ulEM, (PrintOutput_read nP d).1.ulLight,
            (PrintOutput_read nP d).1.ulBuzzer, (PrintOutput_read nP d).1.ulState)
            = decodeWord nP.value
        ∧ (PrintOutput_read nP d).1.ulEM = nP.value % 2
        ∧ (PrintOutput_read nP d).1.ulLight = nP.value / 2 % 2
        ∧ (PrintOutput_read nP d).1.ulBuzzer = nP.value / 4 % 2
        ∧ (PrintOutput_read nP d).1.ulState = nP.value / 8
        ∧ (PrintOutput_read nP d).1.ulRemainingTick = d.ulRemainingTick
        ∧ (PrintOutput_read nP d).1.beepCnt = d.beepCnt
        ∧ (PrintOutput_read nP d).1.timesUpBeepCnt = d.timesUpBeepCnt
        ∧ PrintOutput_cycle now t nP d
            = ((PrintOutput_render now t (PrintOutput_read nP d).1).1,
                (PrintOutput_read nP d).2,
                (PrintOutput_render now t (PrintOutput_read nP d).1).2)
        ∧ (PrintOutput_read nP d).2.pending = false
        ∧ (∀ d2, PrintOutput_read (PrintOutput_read nP d).2 d2
            = (d2, (PrintOutput_read nP d).2))
        ∧ (∀ v, (xTaskNotify (PrintOutput_read nP d).2 v).pending = true)) := by
  have hrE := read_empty nE d hE
  have hrP := read_pending nP d hP
  refine ⟨⟨?_, ?_, ?_⟩, ?_, ?_, ?_, ?_, ?_, ?_, ?_, ?_, ?_, ?_, ?_, ?_⟩
  · rw [hrE]
  · rw [hrE]
  · simp only [PrintOutput_cycle, hrE]
  · rw [hrP]
    rfl
  · rw [hrP]
    simp only [Nat.shiftRight_zero, Nat.and_one_is_mod]
  · rw [hrP]
    simp only [Nat.shiftRight_eq_div_pow, Nat.and_one_is_mod, Nat.pow_one]
  · rw [hrP]
    simp only [Nat.shiftRight_eq_div_pow, Nat.and_one_is_mod, Nat.reducePow]
  · rw [hrP]
    simp only [Nat.shiftRight_eq_div_pow, Nat.reducePow]
  · rw [hrP]
  · rw [hrP]
  · rw [hrP]
  · rfl
  · rw [hrP]
  · intro d2
    rw [hrP]
    exact read_empty _ d2 rfl
  · intro v
    rfl

/-- C15 at the Display that is blinking in Failure: a cycle with nothing
pending keeps the cached (0,1,1,Failure); a cycle that finds the StartShort
word 11 replaces it by (1,1,0,StartShort) and empties the slot. -/
theorem C15_display_field_caching_witness :
    (slotEmpty.pending = false ∧ (slotHolding 11).pending = true)
      ∧ (PrintOutput_read slotEmpty (PrintOutput_read (slotHolding 94) PrintOutput_init).1).1
          = (PrintOutput_read (slotHolding 94) PrintOutput_init).1
      ∧ ((PrintOutput_read (slotHolding 11)
              (PrintOutput_read (slotHolding 94) PrintOutput_init).1).1.ulState = 11 / 8)
      ∧ (PrintOutput_read (slotHolding 11)
            (PrintOutput_read (slotHolding 94) PrintOutput_init).1).2.pending = false :=
  have h := C15_display_field_caching 0 cookingShort.xTimers slotEmpty (slotHolding 11)
    (PrintOutput_read (slotHolding 94) PrintOutput_init).1 (by decide) (by decide)
  ⟨by decide, h.1.1, h.2.2.2.2.2.1, h.2.2.2.2.2.2.2.2.2.2.1⟩

/-! ### C16 -/

/-- C16: for every controller state and every event not listed for it, and for
Resume received by an Active controller whose snapshot is 0, the switch makes no
timer call: the locals and the timer come out of it as they went in (only log
lines may have been printed), so after the step `ulCond`, the pause snapshot and
the timer (active flag, period, expiry time) are what they were. -/
theorem C16_silent_branches_change_nothing (now : Nat) (s : System) (ev : Nat)
    (h : listedInSpecTable s.ulCond ev = false
      ∨ (isActive s ∧ ev = USER_RESUME ∧ s.ulRemainingTick = 0)) :
    (Controller_switch now s ev).1
        = { s with console := (Controller_switch now s ev).1.console }
      ∧ (Controller_step now s ev).ulCond = s.ulCond
      ∧ (Controller_step now s ev).ulRemainingTick = s.ulRemainingTick
      ∧ (Controller_step now s ev).xTimers = s.xTimers
      ∧ (Controller_step now s ev).xTimers.active = s.xTimers.active
      ∧ (Controller_step now s ev).xTimers.period = s.xTimers.period
      ∧ (Controller_step now s ev).xTimers.expiry = s.xTimers.expiry := by
  have hsw : Controller_switch now s ev = (s, 0)
      ∨ Controller_switch now s ev
          = ({ s with console := s.console ++ ["Microwave Resumed...", "No remaining time left..."] },
              0) := by
    rcases h with h | ⟨hA, he, hr⟩
    · exact Or.inl (switch_of_not_listed now s ev h)
    · subst he
      exact Or.inr (switch_active_resume_zero now s hA hr)
  rcases hsw with hsw | hsw <;>
    · rw [Controller_step, hsw]
      exact ⟨rfl, rfl, rfl, rfl, rfl, rfl, rfl⟩

/-- C16 at a cooking controller that receives PowerOn (not listed for Active),
and at a freshly powered-on controller that receives Resume with snapshot 0. -/
theorem C16_silent_branches_change_nothing_witness :
    (listedInSpecTable cookingShort.ulCond POWER_ON = false
        ∧ (Controller_step 2000 cookingShort POWER_ON).xTimers = cookingShort.xTimers
        ∧ (Controller_step 2000 cookingShort POWER_ON).ulCond = cookingShort.ulCond)
      ∧ (isActive (Controller_step 0 Controller_init POWER_ON)
        ∧ (Controller_step 0 Controller_init POWER_ON).ulRemainingTick = 0
        ∧ (Controller_step 9 (Controller_step 0 Controller_init POWER_ON) USER_RESUME).xTimers
            = (Controller_step 0 Controller_init POWER_ON).xTimers) :=
  have h1 := C16_silent_branches_change_nothing 2000 cookingShort POWER_ON
    (Or.inl (by decide))
  have h2 := C16_silent_branches_change_nothing 9 (Controller_step 0 Controller_init POWER_ON)
    USER_RESUME (Or.inr ⟨by decide, rfl, by decide⟩)
  ⟨⟨by decide, h1.2.2.2.1, h1.2.1⟩, ⟨by decide, by decide, h2.2.2.2.1⟩⟩

/-! ### C17 -/

/-- One Controller step keeps the invariant that the timer is active only while
the controller is Active. -/
theorem step_timer_inv (now : Nat) (s : System) (ev : Nat)
    (h : s.xTimers.active = true → isActive s) :
    (Controller_step now s ev).xTimers.active = true → isActive (Controller_step now s ev) := by
  rcases switch_cases now s ev with h0 | ⟨hA, -, -, h1⟩ | ⟨-, -, h1⟩ | ⟨hA, -, h1⟩ | ⟨hA, -, h1⟩ | ⟨hA, -, h1⟩ | ⟨hA, -, h1⟩ | ⟨hA, -, h1⟩ | ⟨hA, -, h1⟩ | ⟨-, -, h1⟩ | ⟨-, -, h1⟩ | ⟨hA, -, -, h1⟩ | ⟨-, -, h1⟩ | ⟨-, -, h1⟩
  · rw [Controller_step, h0]
    exact h
  · rw [Controller_step, h1]
    intro _
    exact hA
  · rw [Controller_step, h1]
    intro _
    exact Or.inr rfl
  · rw [Controller_step, h1]
    intro _
    exact hA
  · rw [Controller_step, h1]
    intro _
    exact hA
  · rw [Controller_step, h1]
    intro _
    exact hA
  · rw [Controller_step, h1]
    intro _
    exact hA
  · rw [Controller_step, h1]
    intro _
    exact hA
  · rw [Controller_step, h1]
    intro _
    exact hA
  · rw [Controller_step, h1]
    intro hx
    exact Bool.noConfusion hx
  · rw [Controller_step, h1]
    intro hx
    exact Bool.noConfusion hx
  · rw [Controller_step, h1]
    intro _
    exact hA
  · rw [Controller_step, h1]
    intro hx
    exact Bool.noConfusion hx
  · rw [Controller_step, h1]
    intro _
    exact Or.inr rfl

/-- A tick never starts the timer: an active timer stays active or stops, a
stopped one stays stopped. -/
theorem timerTick_active (t : Timer) (now : Nat) (h : (timerTick t now).active = true) :
    t.active = true := by
  unfold timerTick at h
  by_cases hf : timerFires t now = true
  · rw [if_pos hf] at h
    exact Bool.noConfusion h
  · rw [if_neg hf] at h
    exact h

/-- One occurrence keeps the invariant. -/
theorem occur_timer_inv (s : System) (o : Occurrence)
    (h : s.xTimers.active = true → isActive s) :
    (System_occur s o).xTimers.active = true → isActive (System_occur s o) := by
  cases o with
  | deliver now ev => exact step_timer_inv now s ev h
  | tick now =>
    intro hx
    exact h (timerTick_active s.xTimers now hx)

/-- Every finite sequence of occurrences keeps the invariant. -/
theorem run_timer_inv (occurrences : List Occurrence) (s : System)
    (h : s.xTimers.active = true → isActive s) :
    (System_run s occurrences).xTimers.active = true → isActive (System_run s occurrences) := by
  induction occurrences generalizing s with
  | nil => exact h
  | cons o rest ih => exact ih (System_occur s o) (occur_timer_inv s o h)

/-- The Controller loop over deliveries is the run of the corresponding
occurrences. -/
theorem Controller_run_eq_System_run (deliveries : List (Nat × Nat)) (s : System) :
    Controller_run s deliveries
      = System_run s (deliveries.map (fun d => Occurrence.deliver d.1 d.2)) := by
  induction deliveries generalizing s with
  | nil => rfl
  | cons d rest ih => exact ih (Controller_step d.1 s d.2)

/-- An Active controller is neither PoweredOff nor in Failure. -/
theorem active_excludes (s : System) (h : isActive s) : ¬ isPoweredOff s ∧ ¬ isFailure s := by
  unfold isPoweredOff isFailure
  rcases h with h | h <;> rw [h] <;> decide

/-- C17: starting with the timer not running, as in the initial state, which is
PoweredOff, after every finite sequence of deliveries (of any values, in any
order, at any ticks), also when interleaved with ticks at which the timer may
expire on its own, the timer is running only if the controller is Active; so it
is not running while the controller is PoweredOff or in Failure. -/
theorem C17_timer_runs_only_while_active (occurrences : List Occurrence)
    (deliveries : List (Nat × Nat)) (s0 : System)
    (hStopped : s0.xTimers.active = false) :
    (isPoweredOff Controller_init ∧ Controller_init.xTimers.active = false)
      ∧ ((Controller_run s0 deliveries).xTimers.active = true
        → isActive (Controller_run s0 deliveries))
      ∧ (isPoweredOff (Controller_run s0 deliveries) ∨ isFailure (Controller_run s0 deliveries)
        → (Controller_run s0 deliveries).xTimers.active = false)
      ∧ ((System_run s0 occurrences).xTimers.active = true
        → isActive (System_run s0 occurrences))
      ∧ (isPoweredOff (System_run s0 occurrences) ∨ isFailure (System_run s0 occurrences)
        → (System_run s0 occurrences).xTimers.active = false) := by
  have h0 : s0.xTimers.active = true → isActive s0 := by
    intro hx
    rw [hStopped] at hx
    exact Bool.noConfusion hx
  have stopped_of : ∀ s : System, (s.xTimers.active = true → isActive s) →
      (isPoweredOff s ∨ isFailure s) → s.xTimers.active = false := by
    intro s hs hor
    cases hb : s.xTimers.active with
    | false => rfl
    | true =>
      have hex := active_excludes s (hs hb)
      rcases hor with hp | hf
      · exact absurd hp hex.1
      · exact absurd hf hex.2
  have hC : (Controller_run s0 deliveries).xTimers.active = true
      → isActive (Controller_run s0 deliveries) := by
    rw [Controller_run_eq_System_run]
    exact run_timer_inv _ s0 h0
  have hS := run_timer_inv occurrences s0 h0
  exact ⟨by decide, hC, stopped_of _ hC, hS, stopped_of _ hS⟩

/-- C17 from the initial state: PowerOn, StartShort, ConditionFailure leaves the
controller in Failure with the timer stopped; PowerOn, StartShort and the tick
5000 at which the countdown expires leaves it Active with the timer stopped. -/
theorem C17_timer_runs_only_while_active_witness :
    (isPoweredOff Controller_init ∧ Controller_init.xTimers.active = false)
      ∧ isFailure (Controller_run Controller_init [(0, POWER_ON), (0, TIMER_5s), (2000, C_FAILURE)])
      ∧ (Controller_run Controller_init
            [(0, POWER_ON), (0, TIMER_5s), (2000, C_FAILURE)]).xTimers.active = false
      ∧ (System_run Controller_init
            [Occurrence.deliver 0 POWER_ON, Occurrence.deliver 0 TIMER_5s,
             Occurrence.tick 5000]).xTimers.active = false :=
  have h := C17_timer_runs_only_while_active
    [Occurrence.deliver 0 POWER_ON, Occurrence.deliver 0 TIMER_5s, Occurrence.tick 5000]
    [(0, POWER_ON), (0, TIMER_5s), (2000, C_FAILURE)] Controller_init (by decide)
  ⟨by decide, by decide, h.2.2.1 (Or.inr (by decide)), by decide⟩

/-! ### C18 -/

/-- A word with the emitter bit set comes out of the switch only in the three
start arms and the Resume arm of an Active controller, each of which calls
`xTimerChangePeriod` and leaves `ulCond` alone. -/
theorem switch_emitter (now : Nat) (s : System) (ev : Nat) :
    (decodeWord ((Controller_switch now s ev).2 % WORD)).1 = 1 →
      ((Controller_switch now s ev).2 = 11 ∨ (Controller_switch now s ev).2 = 19
          ∨ (Controller_switch now s ev).2 = 27 ∨ (Controller_switch now s ev).2 = 51)
        ∧ isActive s
        ∧ (Controller_switch now s ev).1.ulCond = s.ulCond
        ∧ ∃ p, (Controller_switch now s ev).1.xTimers = xTimerChangePeriod s.xTimers p now := by
  rcases switch_cases now s ev with h0 | ⟨-, -, -, h1⟩ | ⟨-, -, h1⟩ | ⟨hA, -, h1⟩ | ⟨hA, -, h1⟩ | ⟨hA, -, h1⟩ | ⟨-, -, h1⟩ | ⟨-, -, h1⟩ | ⟨-, -, h1⟩ | ⟨-, -, h1⟩ | ⟨-, -, h1⟩ | ⟨hA, -, -, h1⟩ | ⟨-, -, h1⟩ | ⟨-, -, h1⟩
  · rw [h0]
    dsimp only
    intro hem
    exact absurd hem (by decide)
  · rw [h1]
    dsimp only
    intro hem
    exact absurd hem (by decide)
  · rw [h1]
    dsimp only
    intro hem
    exact absurd hem (by decide)
  · rw [h1]
    dsimp only
    intro _
    exact ⟨Or.inl (by decide), hA, rfl, ⟨pdMS_TO_TICKS 5000, rfl⟩⟩
  · rw [h1]
    dsimp only
    intro _
    exact ⟨Or.inr (Or.inl (by decide)), hA, rfl, ⟨pdMS_TO_TICKS 10000, rfl⟩⟩
  · rw [h1]
    dsimp only
    intro _
    exact ⟨Or.inr (Or.inr (Or.inl (by decide))), hA, rfl, ⟨pdMS_TO_TICKS 15000, rfl⟩⟩
  · rw [h1]
    dsimp only
    intro hem
    exact absurd hem (by decide)
  · rw [h1]
    dsimp only
    intro hem
    exact absurd hem (by decide)
  · rw [h1]
    dsimp only
    intro hem
    exact absurd hem (by decide)
  · rw [h1]
    dsimp only
    intro hem
    exact absurd hem (by decide)
  · rw [h1]
    dsimp only
    intro hem
    exact absurd hem (by decide)
  · rw [h1]
    dsimp only
    intro _
    exact ⟨Or.inr (Or.inr (Or.inr (by decide))), hA, rfl, ⟨s.ulRemainingTick, rfl⟩⟩
  · rw [h1]
    dsimp only
    intro hem
    exact absurd hem (by decide)
  · rw [h1]
    dsimp only
    intro hem
    exact absurd hem (by decide)

/-- C18: for every state, received value, snapshot and tick, if the word a
Controller step publishes has the emitter bit set, then its light bit is 1, its
buzzer bit is 0 and its reason is StartShort, StartMedium, StartLong or Resume;
the controller is Active after the step, and the step has restarted the timer
(it is active and due one period after the current tick). So a step that ends
PoweredOff or in Failure never publishes a word with the emitter bit set. -/
theorem C18_emitter_only_with_running_countdown (now : Nat) (s : System) (ev : Nat)
    (hem : (decodeWord (Controller_step now s ev).hPrintOutput.value).1 = 1) :
    (decodeWord (Controller_step now s ev).hPrintOutput.value).2.1 = 1
      ∧ (decodeWord (Controller_step now s ev).hPrintOutput.value).2.2.1 = 0
      ∧ ((decodeWord (Controller_step now s ev).hPrintOutput.value).2.2.2 = TIMER_5s
        ∨ (decodeWord (Controller_step now s ev).hPrintOutput.value).2.2.2 = TIMER_10s
        ∨ (decodeWord (Controller_step now s ev).hPrintOutput.value).2.2.2 = TIMER_15s
        ∨ (decodeWord (Controller_step now s ev).hPrintOutput.value).2.2.2 = USER_RESUME)
      ∧ isActive (Controller_step now s ev)
      ∧ (∃ p, (Controller_step now s ev).xTimers = xTimerChangePeriod s.xTimers p now)
      ∧ (Controller_step now s ev).xTimers.active = true
      ∧ (Controller_step now s ev).xTimers.expiry
          = (now + (Controller_step now s ev).xTimers.period) % WORD
      ∧ ¬ isPoweredOff (Controller_step now s ev)
      ∧ ¬ isFailure (Controller_step now s ev) := by
  have hv : (Controller_step now s ev).hPrintOutput.value
      = (Controller_switch now s ev).2 % WORD := rfl
  have hc : (Controller_step now s ev).ulCond = (Controller_switch now s ev).1.ulCond := rfl
  have ht : (Controller_step now s ev).xTimers = (Controller_switch now s ev).1.xTimers := rfl
  rw [hv] at hem
  obtain ⟨hw, hA, hcond, p, hp⟩ := switch_emitter now s ev hem
  have hA2 : isActive (Controller_step now s ev) := by
    unfold isActive
    rw [hc, hcond]
    exact hA
  have hex := active_excludes _ hA2
  rw [hv, ht, hp]
  refine ⟨?_, ?_, ?_, hA2, ⟨p, rfl⟩, rfl, rfl, hex.1, hex.2⟩
  · rcases hw with h | h | h | h <;> rw [h] <;> decide
  · rcases hw with h | h | h | h <;> rw [h] <;> decide
  · rcases hw with h | h | h | h <;> rw [h] <;> decide

/-- C18 at Resume after a Pause with 3000 ticks left: the word 51 has the
emitter bit set, the controller is Active and the timer runs again. -/
theorem C18_emitter_only_with_running_countdown_witness :
    (decodeWord (Controller_step 9000 (Controller_step 2000 cookingShort USER_PAUSE)
        USER_RESUME).hPrintOutput.value).1 = 1
      ∧ isActive (Controller_step 9000 (Controller_step 2000 cookingShort USER_PAUSE) USER_RESUME)
      ∧ (Controller_step 9000 (Controller_step 2000 cookingShort USER_PAUSE)
          USER_RESUME).xTimers.active = true :=
  have h := C18_emitter_only_with_running_countdown 9000
    (Controller_step 2000 cookingShort USER_PAUSE) USER_RESUME (by decide)
  ⟨by decide, h.2.2.2.1, h.2.2.2.2.2.1⟩

/-! ### C19 -/

/-- A Pause received outside the Active arm leaves the snapshot as it was. -/
theorem step_pause_not_active (now : Nat) (s : System) (h : ¬ isActive s) :
    (Controller_step now s USER_PAUSE).ulRemainingTick = s.ulRemainingTick := by
  have h' : ¬ (s.ulCond = POWER_ON ∨ s.ulCond = C_NORMAL) := h
  have hl : listedInSpecTable s.ulCond USER_PAUSE = false := by
    unfold listedInSpecTable
    by_cases h1 : s.ulCond = POWER_OFF
    · rw [if_pos h1]
      decide
    · rw [if_neg h1, if_neg h']
      by_cases h3 : s.ulCond = C_FAILURE
      · rw [if_pos h3]
        decide
      · rw [if_neg h3]
  rw [Controller_step, switch_of_not_listed now s USER_PAUSE hl]

/-- C19: a step writes the pause snapshot only if it is a Pause received by an
Active controller; any other step leaves it unchanged, and it starts at 0. So
from a state `p` whose snapshot is `r ≠ 0` (as a Pause leaves it), after any
deliveries `mid` without a Pause that end with the controller Active, the
snapshot is still `r`, and a Resume step restarts the timer with period `r` and
publishes the word for (1,1,0,Resume). -/
theorem C19_snapshot_written_only_by_pause (now later : Nat) (s : System) (ev : Nat)
    (p : System) (mid : List (Nat × Nat))
    (hev : ev ≠ USER_PAUSE ∨ ¬ isActive s)
    (hp : p.ulRemainingTick ≠ 0) (hmid : ∀ d ∈ mid, d.2 ≠ USER_PAUSE)
    (hact : isActive (Controller_run p mid)) :
    (Controller_step now s ev).ulRemainingTick = s.ulRemainingTick
      ∧ Controller_init.ulRemainingTick = 0
      ∧ (Controller_run p mid).ulRemainingTick = p.ulRemainingTick
      ∧ (Controller_step later (Controller_run p mid) USER_RESUME).xTimers
          = { active := true, period := p.ulRemainingTick,
              expiry := (later + p.ulRemainingTick) % WORD }
      ∧ (Controller_step later (Controller_run p mid) USER_RESUME).hPrintOutput
          = { value := notifyWord 1 1 0 USER_RESUME, pending := true }
      ∧ decodeWord (Controller_step later (Controller_run p mid) USER_RESUME).hPrintOutput.value
          = (1, 1, 0, USER_RESUME)
      ∧ (Controller_step later (Controller_run p mid) USER_RESUME).ulRemainingTick
          = p.ulRemainingTick := by
  have hkeep := run_keeps_snapshot mid p hmid
  have hne : (Controller_run p mid).ulRemainingTick ≠ 0 := by
    rw [hkeep]
    exact hp
  have hres := step_resume later (Controller_run p mid) hact hne
  have hslot : (Controller_step later (Controller_run p mid) USER_RESUME).hPrintOutput
      = { value := 51, pending := true } := by rw [hres]
  refine ⟨?_, rfl, hkeep, ?_, ?_, ?_, ?_⟩
  · by_cases he : ev = USER_PAUSE
    · subst he
      rcases hev with hev | hev
      · exact absurd rfl hev
      · exact step_pause_not_active now s hev
    · exact step_keeps_snapshot now s ev he
  · rw [hres, ← hkeep]
    rfl
  · rw [hslot]
    decide
  · rw [hslot]
    decide
  · rw [hres]
    exact hkeep

/-- C19 at the three sequences the claim names, after a Pause that stored 3000:
Cancel then Resume; PowerOff, PowerOn then Resume; Resume then Resume. -/
theorem C19_snapshot_written_only_by_pause_witness :
    (Controller_step 2000 cookingShort USER_PAUSE).ulRemainingTick = 3000
      ∧ (Controller_step 9000
            (Controller_run (Controller_step 2000 cookingShort USER_PAUSE)
              [(2500, USER_CANCEL)]) USER_RESUME).xTimers
          = { active := true, period := 3000, expiry := 12000 }
      ∧ (Controller_step 9000
            (Controller_run (Controller_step 2000 cookingShort USER_PAUSE)
              [(2500, POWER_OFF), (2600, POWER_ON)]) USER_RESUME).xTimers
          = { active := true, period := 3000, expiry := 12000 }
      ∧ (Controller_step 9000
            (Controller_run (Controller_step 2000 cookingShort USER_PAUSE)
              [(2500, USER_RESUME)]) USER_RESUME).xTimers
          = { active := true, period := 3000, expiry := 12000 }
      ∧ (Controller_step 9000
            (Controller_run (Controller_step 2000 cookingShort USER_PAUSE)
              [(2500, POWER_OFF), (2600, POWER_ON)]) USER_RESUME).hPrintOutput
          = { value := notifyWord 1 1 0 USER_RESUME, pending := true } :=
  have hA := C19_snapshot_written_only_by_pause 0 9000 Controller_init USER_CANCEL
    (Controller_step 2000 cookingShort USER_PAUSE) [(2500, USER_CANCEL)]
    (Or.inl (by decide)) (by decide) (by decide) (by decide)
  have hB := C19_snapshot_written_only_by_pause 0 9000 Controller_init USER_PAUSE
    (Controller_step 2000 cookingShort USER_PAUSE) [(2500, POWER_OFF), (2600, POWER_ON)]
    (Or.inr (by decide)) (by decide) (by decide) (by decide)
  have hC := C19_snapshot_written_only_by_pause 0 9000 Controller_init TIMER_5s
    (Controller_step 2000 cookingShort USER_PAUSE) [(2500, USER_RESUME)]
    (Or.inl (by decide)) (by decide) (by decide) (by decide)
  ⟨by decide, hA.2.2.2.1, hB.2.2.2.1, hC.2.2.2.1, hB.2.2.2.2.1⟩

/-! ### C20 -/

/-- The unsigned difference is 0 exactly when the two words agree modulo
`2 ^ 32`. -/
theorem sub32_eq_zero_iff (a b : Nat) : sub32 a b = 0 ↔ a % WORD = b % WORD := by
  unfold sub32
  simp only [WORD]
  omega

/-- Unsigned subtraction wraps when the subtrahend is the larger word. -/
theorem sub32_of_gt {a b : Nat} (hb : b < WORD) (hab : a < b) :
    sub32 a b = 2 ^ 32 - (b - a) := by
  unfold sub32
  simp only [WORD] at hb ⊢
  omega

/-- C20: the snapshot a Pause stores in an Active controller is
`(expiry - now) mod 2 ^ 32`, read after the stop and whether or not the timer was
running; it is 0 exactly when expiry time and tick count agree modulo `2 ^ 32`.
When the expiry time lies strictly before the tick count, the snapshot is
`2 ^ 32 - (now - expiry)`, which is not 0, and a following Resume restarts the
timer with that period and publishes the word for (1,1,0,Resume). -/
theorem C20_pause_snapshot_wraps (now later : Nat) (s : System)
    (hA : isActive s) (hnow : now < WORD) (hlt : s.xTimers.expiry < now) :
    (Controller_step now s USER_PAUSE).ulRemainingTick
        = sub32 (xTimerGetExpiryTime (xTimerStop s.xTimers)) now
      ∧ (((Controller_step now s USER_PAUSE).ulRemainingTick : Nat) : Int)
          = ((s.xTimers.expiry : Int) - (now : Int)) % (2 : Int) ^ 32
      ∧ (Controller_step now s USER_PAUSE).ulRemainingTick = 2 ^ 32 - (now - s.xTimers.expiry)
      ∧ (Controller_step now s USER_PAUSE).ulRemainingTick ≠ 0
      ∧ (Controller_step later (Controller_step now s USER_PAUSE) USER_RESUME).xTimers
          = { active := true, period := 2 ^ 32 - (now - s.xTimers.expiry),
              expiry := (later + (2 ^ 32 - (now - s.xTimers.expiry))) % WORD }
      ∧ (Controller_step later (Controller_step now s USER_PAUSE) USER_RESUME).hPrintOutput
          = { value := notifyWord 1 1 0 USER_RESUME, pending := true }
      ∧ decodeWord
            (Controller_step later (Controller_step now s USER_PAUSE) USER_RESUME).hPrintOutput.value
          = (1, 1, 0, USER_RESUME)
      ∧ (∀ t, (Controller_step t s USER_PAUSE).ulRemainingTick = 0
            ↔ s.xTimers.expiry % WORD = t % WORD) := by
  have hsnap : ∀ t, (Controller_step t s USER_PAUSE).ulRemainingTick = remaining s.xTimers t := by
    intro t
    rw [step_pause t s hA]
  have hval : remaining s.xTimers now = 2 ^ 32 - (now - s.xTimers.expiry) :=
    sub32_of_gt hnow hlt
  have hne : (Controller_step now s USER_PAUSE).ulRemainingTick ≠ 0 := by
    rw [hsnap, hval]
    simp only [WORD] at hnow
    omega
  have hA1 : isActive (Controller_step now s USER_PAUSE) := by
    rw [step_pause now s hA]
    exact hA
  have hres := step_resume later (Controller_step now s USER_PAUSE) hA1 hne
  have hslot : (Controller_step later (Controller_step now s USER_PAUSE) USER_RESUME).hPrintOutput
      = { value := 51, pending := true } := by rw [hres]
  refine ⟨?_, ?_, ?_, hne, ?_, ?_, ?_, ?_⟩
  · rw [hsnap]
    rfl
  · rw [hsnap]
    exact remaining_eq_int s.xTimers now
  · rw [hsnap, hval]
  · rw [hres, hsnap, hval]
    rfl
  · rw [hslot]
    decide
  · rw [hslot]
    decide
  · intro t
    rw [hsnap]
    exact sub32_eq_zero_iff _ _

/-- C20 at a 5000-tick countdown that expired at tick 5000 and whose
`TIMER_EXPIRED` has been processed: a Pause at tick 7000 stores
`2 ^ 32 - 2000`, and a Resume at tick 8000 restarts the timer with that
period. -/
theorem C20_pause_snapshot_wraps_witness :
    isActive (Controller_step 5000 cookingShort TIMER_EXPIRED)
      ∧ (Controller_step 5000 cookingShort TIMER_EXPIRED).xTimers.expiry < 7000
      ∧ (Controller_step 7000 (Controller_step 5000 cookingShort TIMER_EXPIRED)
            USER_PAUSE).ulRemainingTick = 4294965296
      ∧ (Controller_step 8000
            (Controller_step 7000 (Controller_step 5000 cookingShort TIMER_EXPIRED) USER_PAUSE)
            USER_RESUME).hPrintOutput
          = { value := notifyWord 1 1 0 USER_RESUME, pending := true } :=
  have h := C20_pause_snapshot_wraps 7000 8000 (Controller_step 5000 cookingShort TIMER_EXPIRED)
    (by decide) (by decide) (by decide)
  ⟨by decide, by decide, h.2.2.1, h.2.2.2.2.2.1⟩

end Microwave
